import Mathlib

/-!
A shallow embedding of the C-DNS block CBOR writer
(`src/blockcborwriter.cpp`) and verification of the specification's
claims about it.

Conventions of the embedding:
* machine integers become `Nat` (ports, counts, opcodes, indices) or
  `Int` (timestamps in nanoseconds, as `std::chrono` time points);
* `boost::optional` fields become `Option`;
* byte strings (`byte_string`) become `List Nat` with each element a byte;
* the mutable writer object becomes a `WriterState` record threaded
  explicitly, and the CBOR encoder output becomes the `out : List Nat`
  field of that record;
* code that dereferences a possibly-absent value becomes `Option`-valued.

Types and functions that live in headers that are not part of the
sources at hand (`blockcbordata.hpp`, `blockcbor.hpp`, `capturedns.hpp`,
`cborencoder.hpp`) are modelled from the spec; each such definition
carries a doc comment starting with `Modelled from the spec:`.
-/

namespace Compactor

/-- Per-block packet statistics counters.
Modelled from the spec: `PacketStatistics` is declared outside the
sources at hand; §6 lists "processed/queries/responses/malformed counts".
The writer only copies these records around, so the exact field set is
irrelevant to the claims; what matters is that the C++ object is
value-initialised (all counters zero) by `PacketStatistics()`. -/
structure PacketStatistics where
  processed_count : Nat := 0
  query_count : Nat := 0
  response_count : Nat := 0
  malformed_count : Nat := 0
  deriving DecidableEq

/-- A `(qtype, qclass)` pair (`block_cbor::ClassType`). -/
structure ClassType where
  qtype : Nat := 0
  qclass : Nat := 0
  deriving DecidableEq

/-- One entry of a DNS question section (`CaptureDNS::query`):
name, type and class of the question. -/
structure DNSQuestion where
  dname : List Nat := []
  query_type : Nat := 0
  query_class : Nat := 0
  deriving DecidableEq

/-- The OPT pseudo-record of a message (`q.dns.edns0()`):
extended rcode, UDP payload size, EDNS version and the OPT RDATA
(`edns0->rr().data()`). -/
structure EDNS0 where
  extended_rcode : Nat := 0
  udp_payload_size : Nat := 0
  edns_version : Nat := 0
  opt_rdata : List Nat := []
  deriving DecidableEq

/-- The parsed DNS payload of one message (the `CaptureDNS` object
reached as `d.dns`). Accessor methods of the C++ class become fields.
The base `rcode()` is the 4-bit RCODE field of the DNS header. -/
structure CaptureDNS where
  id : Nat := 0
  opcode : Nat := 0
  rcode : Nat := 0
  questions_count : Nat := 0
  answers_count : Nat := 0
  authority_count : Nat := 0
  additional_count : Nat := 0
  queries : List DNSQuestion := []
  edns0 : Option EDNS0 := none
  deriving DecidableEq

/-- An IP address (`IPAddress`): its network-order byte representation
and its family. -/
structure IPAddress where
  asNetworkBinary : List Nat := []
  is_ipv6 : Bool := false
  deriving DecidableEq

/-- One observed DNS message with its capture metadata (`DNSMessage`). -/
structure DNSMessage where
  timestamp : Int := 0
  clientIP : Option IPAddress := none
  serverIP : Option IPAddress := none
  clientPort : Option Nat := none
  serverPort : Option Nat := none
  hoplimit : Option Nat := none
  wire_size : Option Nat := none
  dns : CaptureDNS := {}
  deriving DecidableEq

/-- A matched transaction (`QueryResponse`): optional query side,
optional response side.  `transport_flags`, `qr_type` and `dns_flags`
are modelled from the spec: they are computed by
`block_cbor::transport_flags` / `transaction_type` / `dns_flags`
(declared in `blockcbor.hpp`, not among the sources at hand) from the
transaction's capture metadata; no claim depends on their formula, so
they are carried as given attributes of the transaction. -/
structure QueryResponse where
  query : Option DNSMessage := none
  response : Option DNSMessage := none
  transport_flags : Nat := 0
  qr_type : Nat := 0
  dns_flags : Nat := 0
  deriving DecidableEq

/-- `qr->has_query() ? qr->query() : qr->response()`: the leading
message of a transaction, `none` when the transaction has no side at
all (which the C++ code never constructs). -/
def leadingMsg (qr : QueryResponse) : Option DNSMessage :=
  match qr.query with
  | some q => some q
  | none => qr.response

/-- The flat set of boolean exclusion hints (`HintsExcluded`,
`config_.exclude_hints`), one per optional output field; the field set
follows §6 of the spec. -/
structure HintsExcluded where
  server_address : Bool := false
  server_port : Bool := false
  transport : Bool := false
  transaction_type : Bool := false
  dns_flags : Bool := false
  timestamp : Bool := false
  client_address : Bool := false
  client_port : Bool := false
  transaction_id : Bool := false
  query_qdcount : Bool := false
  query_class_type : Bool := false
  query_name : Bool := false
  query_size : Bool := false
  client_hoplimit : Bool := false
  query_opcode : Bool := false
  query_rcode : Bool := false
  query_ancount : Bool := false
  query_arcount : Bool := false
  query_nscount : Bool := false
  query_udp_size : Bool := false
  query_edns_version : Bool := false
  query_opt_rdata : Bool := false
  response_size : Bool := false
  response_rcode : Bool := false
  response_delay : Bool := false
  qr_flags : Bool := false
  qr_signature : Bool := false
  rr_ttl : Bool := false
  rr_rdata : Bool := false
  address_events : Bool := false
  deriving DecidableEq

/-- The slice of `Configuration` that the writer reads. -/
structure Configuration where
  client_address_prefix_ipv4 : Nat := 32
  client_address_prefix_ipv6 : Nat := 128
  server_address_prefix_ipv4 : Nat := 32
  server_address_prefix_ipv6 : Nat := 128
  start_end_times_from_data : Bool := false
  max_block_items : Nat := 5000
  exclude_hints : HintsExcluded := {}
  deriving DecidableEq

/-! ### Address masking (`addr_to_string`, blockcborwriter.cpp:31-43) -/

/-- The prefix length `addr_to_string` selects by family and
client/server role (blockcborwriter.cpp:33-36). -/
def selected_prefix_len (addr : IPAddress) (config : Configuration)
    (is_client : Bool) : Nat :=
  if addr.is_ipv6 then
    if is_client then config.client_address_prefix_ipv6
    else config.server_address_prefix_ipv6
  else
    if is_client then config.client_address_prefix_ipv4
    else config.server_address_prefix_ipv4

/-- `std::basic_string::resize n`: truncate to the first `n` elements,
padding with zero (value-initialised) bytes when the string is shorter. -/
def listResize (l : List Nat) (n : Nat) : List Nat :=
  l.take n ++ List.replicate (n - l.length) 0

/-- Apply `f` to the last element of a list (models the in-place
`res[prefix_nbytes - 1] &= ...` store). -/
def mapLast (f : Nat → Nat) : List Nat → List Nat
  | [] => []
  | [b] => [f b]
  | b :: b2 :: rest => b :: mapLast f (b2 :: rest)

theorem mapLast_cons_cons (f : Nat → Nat) (b b2 : Nat) (rest : List Nat) :
    mapLast f (b :: b2 :: rest) = b :: mapLast f (b2 :: rest) := rfl

/-- The byte-level masking of `addr_to_string`
(blockcborwriter.cpp:37-42): keep the first `ceil(prefix_len/8)` bytes
of the network-order representation and mask the final kept byte with
`0xff << (prefix_nbytes * 8 - prefix_len)`.  The `% 256` is the C++
store back into an `unsigned char`. -/
def maskBytes (bytes : List Nat) (prefix_len : Nat) : List Nat :=
  let prefix_nbytes := (prefix_len + 7) / 8
  let res := listResize bytes prefix_nbytes
  if prefix_nbytes > 0 then
    mapLast (fun b => (b &&& (0xff <<< (prefix_nbytes * 8 - prefix_len))) % 256) res
  else
    res

/-- `addr_to_string` (blockcborwriter.cpp:31-43). -/
def addr_to_string (addr : IPAddress) (config : Configuration)
    (is_client : Bool := true) : List Nat :=
  maskBytes addr.asNetworkBinary (selected_prefix_len addr config is_client)

example :
    addr_to_string ⟨[198, 51, 100, 5], false⟩
      { client_address_prefix_ipv4 := 24 } true = [198, 51, 100] := by decide

example :
    addr_to_string ⟨[198, 51, 100, 5], false⟩
      { client_address_prefix_ipv4 := 30 } true = [198, 51, 100, 4] := by decide

example :
    addr_to_string ⟨[198, 51, 100, 5], false⟩
      { client_address_prefix_ipv4 := 0 } true = [] := by decide

/-! ### Block data (`block_cbor::BlockData`, modelled from §4.2/§4.3) -/

/-- A deduplicated query/response signature
(`block_cbor::QueryResponseSignature`); every field is optional and
starts unset in a default-constructed signature. -/
structure QueryResponseSignature where
  server_address : Option Nat := none
  server_port : Option Nat := none
  qr_transport_flags : Option Nat := none
  qr_type : Option Nat := none
  dns_flags : Option Nat := none
  qdcount : Option Nat := none
  query_classtype : Option Nat := none
  query_opcode : Option Nat := none
  query_rcode : Option Nat := none
  query_ancount : Option Nat := none
  query_nscount : Option Nat := none
  query_arcount : Option Nat := none
  query_edns_payload_size : Option Nat := none
  query_edns_version : Option Nat := none
  query_opt_rdata : Option Nat := none
  response_rcode : Option Nat := none
  qr_flags : Option Nat := none
  deriving DecidableEq

/-- A per-transaction record (`block_cbor::QueryResponseItem`).
The extended-section extra info is not modelled: no claim touches it. -/
structure QueryResponseItem where
  qr_flags : Nat := 0
  tstamp : Option Int := none
  client_address : Option Nat := none
  client_port : Option Nat := none
  id : Option Nat := none
  qname : Option Nat := none
  query_size : Option Nat := none
  response_size : Option Nat := none
  hoplimit : Option Nat := none
  response_delay : Option Int := none
  signature : Option Nat := none
  deriving DecidableEq

/-- Modelled from the spec: §6 gives the `qr_flags` bit positions
(bit 0 HAS_QUERY .. bit 5 RESPONSE_HAS_NO_QUESTION); the constants
themselves live in `blockcbor.hpp`, which is not among the sources at
hand. -/
def HAS_QUERY : Nat := 1
/-- Modelled from the spec: §6, bit 1. -/
def HAS_RESPONSE : Nat := 2
/-- Modelled from the spec: §6, bit 2. -/
def QUERY_HAS_OPT : Nat := 4
/-- Modelled from the spec: §6, bit 3. -/
def RESPONSE_HAS_OPT : Nat := 8
/-- Modelled from the spec: §6, bit 4. -/
def QUERY_HAS_NO_QUESTION : Nat := 16
/-- Modelled from the spec: §6, bit 5. -/
def RESPONSE_HAS_NO_QUESTION : Nat := 32

/-- Modelled from the spec: §4.2 — an intern table `add` returns the
index of an already-present equal value, otherwise appends the value
and returns its fresh index (indices here 0-based; the base offset is
a schema detail no claim depends on).  `blockcbordata.hpp` is not
among the sources at hand. -/
def internAdd [DecidableEq α] (l : List α) (v : α) : List α × Nat :=
  match l.indexOf? v with
  | some i => (l, i)
  | none => (l ++ [v], l.length)

/-- Modelled from the spec: §4.3 — the per-block aggregate
(`block_cbor::BlockData`, `data_`): intern tables, the ordered record
list, time bounds and the statistics window snapshots.  A
default-constructed / `clear()`ed block is `{}`.  The question/RR list
tables are not modelled: no claim touches them. -/
structure BlockData where
  addresses : List (List Nat) := []
  class_types : List ClassType := []
  names_rdatas : List (List Nat) := []
  query_response_signatures : List QueryResponseSignature := []
  query_response_items : List QueryResponseItem := []
  earliest_time : Int := 0
  start_time : Option Int := none
  end_time : Option Int := none
  start_packet_statistics : PacketStatistics := {}
  last_packet_statistics : PacketStatistics := {}
  deriving DecidableEq

/-- Modelled from the spec: §4.3 — `BlockData::is_full()` is
`query_response_items.len() >= config.max_block_items`. -/
def BlockData.is_full (config : Configuration) (d : BlockData) : Bool :=
  d.query_response_items.length ≥ config.max_block_items

/-! ### CBOR byte emission

The streaming encoder (`cborencoder.hpp`) is not among the sources at
hand; the primitive encodings below are modelled from the spec (§4.1:
standard CBOR major types, shortest-form integers; §6/E1 give the
concrete `0x9f`/`0xff` bytes for the indefinite array header and
break). -/

/-- Modelled from the spec: shortest-form CBOR header for major type
`major` with argument `n` (RFC 8949 initial byte plus big-endian
argument bytes). -/
def cborHead (major : Nat) (n : Nat) : List Nat :=
  if n < 24 then [major * 32 + n]
  else if n < 2 ^ 8 then [major * 32 + 24, n]
  else if n < 2 ^ 16 then [major * 32 + 25, n / 2 ^ 8 % 256, n % 256]
  else if n < 2 ^ 32 then
    [major * 32 + 26, n / 2 ^ 24 % 256, n / 2 ^ 16 % 256, n / 2 ^ 8 % 256, n % 256]
  else
    [major * 32 + 27, n / 2 ^ 56 % 256, n / 2 ^ 48 % 256, n / 2 ^ 40 % 256,
     n / 2 ^ 32 % 256, n / 2 ^ 24 % 256, n / 2 ^ 16 % 256, n / 2 ^ 8 % 256, n % 256]

/-- Modelled from the spec: CBOR unsigned integer (major type 0). -/
def cborUint (n : Nat) : List Nat := cborHead 0 n

/-- Modelled from the spec: CBOR integer — major type 0 for
non-negative values, major type 1 (argument `-1 - i`) for negatives. -/
def cborInt (i : Int) : List Nat :=
  if 0 ≤ i then cborUint i.toNat else cborHead 1 (-1 - i).toNat

/-- Modelled from the spec: the byte starting an indefinite-length
CBOR array (`enc_->writeArrayHeader()` with no count), `0x9f`. -/
def CBOR_INDEF_ARRAY : Nat := 0x9f

/-- Modelled from the spec: the CBOR `break` byte
(`enc_->writeBreak()`), `0xff`. -/
def CBOR_BREAK : Nat := 0xff

/-- Modelled from the spec: `BlockParameters::writeCbor`
(`blockcbordata.hpp` is not among the sources at hand).  §6 only
requires a complete CBOR item here; the one parameter the claims read
(`max_block_items`) is emitted as a one-entry map. -/
def blockParametersBytes (config : Configuration) : List Nat :=
  cborHead 5 1 ++ cborUint 0 ++ cborUint config.max_block_items

/-- Modelled from the spec: §4.4/§6 — the file-preamble field indices
assigned by `block_cbor::find_file_preamble_index` for format 1.0, in
the order major, minor, private, block-parameters. -/
def major_format_index : Nat := 0
/-- Modelled from the spec: §4.4/§6. -/
def minor_format_index : Nat := 1
/-- Modelled from the spec: §4.4/§6. -/
def private_format_index : Nat := 2
/-- Modelled from the spec: §4.4/§6. -/
def block_parameters_index : Nat := 3

/-- Modelled from the spec: §6 — `file-type-id = "C-DNS"` and the
1.0 version numbers (`FILE_FORMAT_10_MAJOR_VERSION = 1`,
`MINOR = 0`; the private version is an unconstrained small integer). -/
def FILE_FORMAT_ID_BYTES : List Nat := cborHead 3 5 ++ [0x43, 0x2d, 0x44, 0x4e, 0x53]
/-- Modelled from the spec: §6. -/
def FILE_FORMAT_10_MAJOR_VERSION : Nat := 1
/-- Modelled from the spec: §6. -/
def FILE_FORMAT_10_MINOR_VERSION : Nat := 0
/-- Modelled from the spec: §6 leaves this as `<u>`. -/
def FILE_FORMAT_10_PRIVATE_VERSION : Nat := 0

/-- The bytes `writeFileHeader` (blockcborwriter.cpp:350-374) emits:
the outer 3-element array, the file type id, the 4-entry preamble map
(with `writeBlockParameters`, blockcborwriter.cpp:376-385, inlined as
its one-element array) and finally the indefinite-length header that
starts the file-blocks array. -/
def fileHeaderBytes (config : Configuration) : List Nat :=
  cborHead 4 3 ++ FILE_FORMAT_ID_BYTES ++
  cborHead 5 4 ++
  cborUint major_format_index ++ cborUint FILE_FORMAT_10_MAJOR_VERSION ++
  cborUint minor_format_index ++ cborUint FILE_FORMAT_10_MINOR_VERSION ++
  cborUint private_format_index ++ cborUint FILE_FORMAT_10_PRIVATE_VERSION ++
  cborUint block_parameters_index ++
  (cborHead 4 1 ++ blockParametersBytes config) ++
  [CBOR_INDEF_ARRAY]

/-- Modelled from the spec: §4.3/§6 — `BlockData::writeCbor`
(`blockcbordata.hpp` is not among the sources at hand) emits the block
as one complete CBOR map; sections other than the block preamble are
omitted when empty.  The table and item section bodies are summarised
as their entry counts: the claims settled here depend only on the
emission being a single complete (hence non-empty) CBOR item per
block, never on table entry encodings. -/
def blockCborBytes (b : BlockData) : List Nat :=
  let preamble :=
    cborUint 0 ++
    (cborHead 5 (1 + (if b.start_time.isSome then 1 else 0)
        + (if b.end_time.isSome then 1 else 0)) ++
     cborUint 1 ++ cborInt b.earliest_time ++
     (match b.start_time with
      | some t => cborUint 2 ++ cborInt t
      | none => []) ++
     (match b.end_time with
      | some t => cborUint 3 ++ cborInt t
      | none => []))
  let sections : List (Option (List Nat)) :=
    [some preamble,
     if b.addresses.isEmpty then none
       else some (cborUint 2 ++ cborHead 4 b.addresses.length),
     if b.class_types.isEmpty then none
       else some (cborUint 3 ++ cborHead 4 b.class_types.length),
     if b.names_rdatas.isEmpty then none
       else some (cborUint 4 ++ cborHead 4 b.names_rdatas.length),
     if b.query_response_signatures.isEmpty then none
       else some (cborUint 5 ++ cborHead 4 b.query_response_signatures.length),
     if b.query_response_items.isEmpty then none
       else some (cborUint 6 ++ cborHead 4 b.query_response_items.length)]
  let present := sections.filterMap id
  cborHead 5 present.length ++ present.flatten

/-! ### The writer (`BlockCborWriter`) -/

/-- The writer's mutable state: the active block `data` (`data_`), the
in-progress record (`query_response_`), the statistics windowing state
(blockcborwriter.cpp:54-55), and the encoder modelled as the byte list
written so far (`out`) plus, as a projection of that stream, the list
of blocks flushed into it (`flushed`).  The extended-section scratch
lists are not modelled: no claim touches them.  A freshly constructed
writer (blockcborwriter.cpp:46-64, non-live) is `{}`. -/
structure WriterState where
  data : BlockData := {}
  query_response : QueryResponseItem := {}
  last_end_block_statistics : PacketStatistics := {}
  need_start_block_stats : Bool := true
  is_open : Bool := false
  out : List Nat := []
  flushed : List BlockData := []
  deriving DecidableEq

/-- `BlockCborWriter::updateBlockStats` (blockcborwriter.cpp:400-408). -/
def updateBlockStats (stats : PacketStatistics) (w : WriterState) : WriterState :=
  let w :=
    if w.need_start_block_stats then
      { w with
        data := { w.data with start_packet_statistics := w.last_end_block_statistics },
        need_start_block_stats := false }
    else w
  { w with last_end_block_statistics := stats }

/-- `BlockCborWriter::writeBlock` (blockcborwriter.cpp:392-398): stamp
`last_packet_statistics`, serialise the block (append its bytes to the
stream, record it in `flushed`), clear it, re-arm the start-stats
flag. -/
def writeBlock (w : WriterState) : WriterState :=
  let b := { w.data with last_packet_statistics := w.last_end_block_statistics }
  { w with
    data := {},
    out := w.out ++ blockCborBytes b,
    flushed := w.flushed ++ [b],
    need_start_block_stats := true }

/-- `BlockCborWriter::writeFileFooter` (blockcborwriter.cpp:387-390):
a single CBOR `break`. -/
def writeFileFooter (w : WriterState) : WriterState :=
  { w with out := w.out ++ [CBOR_BREAK] }

/-- Opening the sink and writing the file header
(blockcborwriter.cpp:109-110 and 350-374).  The byte stream of the new
file starts with the header, ending in the indefinite-length
file-blocks array header. -/
def openFile (config : Configuration) (w : WriterState) : WriterState :=
  { w with is_open := true, out := fileHeaderBytes config, flushed := [] }

/-- `BlockCborWriter::close` (blockcborwriter.cpp:71-81): when the sink
is open, optionally stamp `end_time` in live mode, flush the current
block — full or not — then write the footer and close. -/
def close (live : Bool) (now : Int) (w : WriterState) : WriterState :=
  if w.is_open then
    let w :=
      if live && w.data.end_time.isNone then
        { w with data := { w.data with end_time := some now } }
      else w
    let w := writeBlock w
    let w := writeFileFooter w
    { w with is_open := false }
  else w

/-- `BlockCborWriter::startRecord` (blockcborwriter.cpp:114-125): when
the active block is full, stamp its `end_time` with the leading
message's timestamp, flush it and start the next block at that same
timestamp; always reset the in-progress record.  `none` models the
C++ dereference of a transaction with neither side. -/
def startRecord (config : Configuration) (qr : QueryResponse)
    (w : WriterState) : Option WriterState :=
  if BlockData.is_full config w.data then
    match leadingMsg qr with
    | none => none
    | some d =>
      let w := { w with data := { w.data with end_time := some d.timestamp } }
      let w := writeBlock w
      some { w with
             data := { w.data with start_time := some d.timestamp },
             query_response := {} }
  else
    some { w with query_response := {} }

/-- `BlockCborWriter::endRecord` (blockcborwriter.cpp:127-131): move
the in-progress record into the block. -/
def endRecord (w : WriterState) : WriterState :=
  { w with
    data := { w.data with
              query_response_items := w.data.query_response_items ++ [w.query_response] },
    query_response := {} }

/-! ### `BlockCborWriter::writeBasic` (blockcborwriter.cpp:133-265)

The body is embedded as a chain of phases over the triple of values the
C++ code mutates: the block `data_`, the in-progress item `qri`
(a reference to `query_response_`) and the local signature `qs`.  Each
phase mirrors one contiguous slice of the source. -/

/-- The state `writeBasic` threads through its phases. -/
structure InProgress where
  data : BlockData
  qri : QueryResponseItem
  qs : QueryResponseSignature
  deriving DecidableEq

/-- Lines 145-155: maintain `earliest_time`, and — only with
`start_end_times_from_data` — pull `start_time` down and `end_time` up
to the record's timestamp. -/
def updTimes (config : Configuration) (ts : Int) (data : BlockData) : BlockData :=
  let data :=
    if data.query_response_items.length = 0 || ts < data.earliest_time then
      { data with earliest_time := ts }
    else data
  if config.start_end_times_from_data then
    let data :=
      match data.end_time with
      | none => { data with end_time := some ts }
      | some e => if e < ts then { data with end_time := some ts } else data
    match data.start_time with
    | none => { data with start_time := some ts }
    | some s => if ts < s then { data with start_time := some ts } else data
  else data

/-- Lines 157-167: basic query signature info (server address/port,
transport flags, transaction type, DNS flags). -/
def sigBasicInfo (config : Configuration) (qr : QueryResponse) (d : DNSMessage)
    (st : InProgress) : InProgress :=
  let exclude := config.exclude_hints
  let st :=
    if exclude.server_address then st else
    match d.serverIP with
    | none => st
    | some ip =>
      let r := internAdd st.data.addresses (addr_to_string ip config false)
      { st with data := { st.data with addresses := r.1 },
                qs := { st.qs with server_address := some r.2 } }
  let st :=
    if exclude.server_port then st else
    match d.serverPort with
    | none => st
    | some p => { st with qs := { st.qs with server_port := some p } }
  let st :=
    if exclude.transport then st
    else { st with qs := { st.qs with qr_transport_flags := some qr.transport_flags } }
  let st :=
    if exclude.transaction_type then st
    else { st with qs := { st.qs with qr_type := some qr.qr_type } }
  if exclude.dns_flags then st
  else { st with qs := { st.qs with dns_flags := some qr.dns_flags } }

/-- Lines 169-179: basic query/response item info (timestamp, client
address/port, transaction id) and the signature's `qdcount`. -/
def itemBasicInfo (config : Configuration) (d : DNSMessage)
    (st : InProgress) : InProgress :=
  let exclude := config.exclude_hints
  let st :=
    if exclude.timestamp then st
    else { st with qri := { st.qri with tstamp := some d.timestamp } }
  let st :=
    if exclude.client_address then st else
    match d.clientIP with
    | none => st
    | some ip =>
      let r := internAdd st.data.addresses (addr_to_string ip config true)
      { st with data := { st.data with addresses := r.1 },
                qri := { st.qri with client_address := some r.2 } }
  let st :=
    if exclude.client_port then st else
    match d.clientPort with
    | none => st
    | some p => { st with qri := { st.qri with client_port := some p } }
  let st :=
    if exclude.transaction_id then st
    else { st with qri := { st.qri with id := some d.dns.id } }
  if exclude.query_qdcount then st
  else { st with qs := { st.qs with qdcount := some d.dns.questions_count } }

/-- Lines 181-195: first-question info — flag an empty question
section, otherwise intern the leading question's classtype and name. -/
def firstQueryInfo (exclude : HintsExcluded) (d : DNSMessage)
    (st : InProgress) : InProgress :=
  match d.dns.queries with
  | [] => { st with qri := { st.qri with qr_flags := st.qri.qr_flags ||| QUERY_HAS_NO_QUESTION } }
  | query :: _ =>
    let ct : ClassType := { qtype := query.query_type, qclass := query.query_class }
    let st :=
      if exclude.query_class_type then st else
      let r := internAdd st.data.class_types ct
      { st with data := { st.data with class_types := r.1 },
                qs := { st.qs with query_classtype := some r.2 } }
    if exclude.query_name then st else
    let r := internAdd st.data.names_rdatas query.dname
    { st with data := { st.data with names_rdatas := r.1 },
              qri := { st.qri with qname := some r.2 } }

/-- Lines 218-230: the query-side OPT block — compose the extended
rcode onto the already-stored base rcode, set `QUERY_HAS_OPT`, record
payload size, EDNS version and OPT RDATA.  The C++ `*qs.query_rcode`
dereference happens under the same `!exclude.query_rcode` gate that
stored the base rcode, so the value is always present there; `getD 0`
stands in for the dereference. -/
def querySideEdns (exclude : HintsExcluded) (edns0 : EDNS0)
    (st : InProgress) : InProgress :=
  let st :=
    if exclude.query_rcode then st
    else { st with qs := { st.qs with
           query_rcode := some (st.qs.query_rcode.getD 0 + (edns0.extended_rcode <<< 4)) } }
  let st := { st with qri := { st.qri with qr_flags := st.qri.qr_flags ||| QUERY_HAS_OPT } }
  let st :=
    if exclude.query_udp_size then st
    else { st with qs := { st.qs with query_edns_payload_size := some edns0.udp_payload_size } }
  let st :=
    if exclude.query_edns_version then st
    else { st with qs := { st.qs with query_edns_version := some edns0.edns_version } }
  if exclude.query_opt_rdata then st else
  let r := internAdd st.data.names_rdatas edns0.opt_rdata
  { st with data := { st.data with names_rdatas := r.1 },
            qs := { st.qs with query_opt_rdata := some r.2 } }

/-- Lines 197-231: the query side.  Note lines 211-216: the value
stored in `query_nscount` is the authority count and the value stored
in `query_arcount` is the additional count, but the two stores sit
under the `!exclude.query_arcount` and `!exclude.query_nscount`
branches respectively — exactly as in the source. -/
def querySideInfo (exclude : HintsExcluded) (qopt : Option DNSMessage)
    (st : InProgress) : InProgress :=
  match qopt with
  | none => st
  | some q =>
    let st := { st with qri := { st.qri with qr_flags := st.qri.qr_flags ||| HAS_QUERY } }
    let st :=
      if exclude.query_size then st else
      match q.wire_size with
      | none => st
      | some s => { st with qri := { st.qri with query_size := some s } }
    let st :=
      if exclude.client_hoplimit then st else
      match q.hoplimit with
      | none => st
      | some h => { st with qri := { st.qri with hoplimit := some h } }
    let st :=
      if exclude.query_opcode then st
      else { st with qs := { st.qs with query_opcode := some q.dns.opcode } }
    let st :=
      if exclude.query_rcode then st
      else { st with qs := { st.qs with query_rcode := some q.dns.rcode } }
    let st :=
      if exclude.query_ancount then st
      else { st with qs := { st.qs with query_ancount := some q.dns.answers_count } }
    let st :=
      if exclude.query_arcount then st
      else { st with qs := { st.qs with query_nscount := some q.dns.authority_count } }
    let st :=
      if exclude.query_nscount then st
      else { st with qs := { st.qs with query_arcount := some q.dns.additional_count } }
    match q.dns.edns0 with
    | none => st
    | some edns0 => querySideEdns exclude edns0 st

/-- Lines 246-252: the response-side OPT block. -/
def responseSideEdns (exclude : HintsExcluded) (edns0 : EDNS0)
    (st : InProgress) : InProgress :=
  let st :=
    if exclude.response_rcode then st
    else { st with qs := { st.qs with
           response_rcode := some (st.qs.response_rcode.getD 0 + (edns0.extended_rcode <<< 4)) } }
  { st with qri := { st.qri with qr_flags := st.qri.qr_flags ||| RESPONSE_HAS_OPT } }

/-- Lines 233-256: the response side.  `query_opcode` is set from the
response only when the query side has not already set it. -/
def responseSideInfo (exclude : HintsExcluded) (ropt : Option DNSMessage)
    (st : InProgress) : InProgress :=
  match ropt with
  | none => st
  | some r =>
    let st := { st with qri := { st.qri with qr_flags := st.qri.qr_flags ||| HAS_RESPONSE } }
    let st :=
      if exclude.response_size then st else
      match r.wire_size with
      | none => st
      | some s => { st with qri := { st.qri with response_size := some s } }
    let st :=
      if !exclude.query_opcode && st.qs.query_opcode.isNone then
        { st with qs := { st.qs with query_opcode := some r.dns.opcode } }
      else st
    let st :=
      if exclude.response_rcode then st
      else { st with qs := { st.qs with response_rcode := some r.dns.rcode } }
    let st :=
      match r.dns.edns0 with
      | none => st
      | some edns0 => responseSideEdns exclude edns0 st
    if r.dns.questions_count = 0 then
      { st with qri := { st.qri with qr_flags := st.qri.qr_flags ||| RESPONSE_HAS_NO_QUESTION } }
    else st

/-- Lines 258-259: `response_delay`, only when both sides are
present. -/
def delayInfo (exclude : HintsExcluded) (qr : QueryResponse)
    (st : InProgress) : InProgress :=
  match qr.query, qr.response with
  | some q, some r =>
    if exclude.response_delay then st
    else { st with qri := { st.qri with response_delay := some (r.timestamp - q.timestamp) } }
  | _, _ => st

/-- Lines 261-264: mirror the item's flags into the signature and
intern the signature, attaching its index to the item. -/
def finishSignature (exclude : HintsExcluded) (st : InProgress) : InProgress :=
  let st :=
    if exclude.qr_flags then st
    else { st with qs := { st.qs with qr_flags := some st.qri.qr_flags } }
  if exclude.qr_signature then st else
  let r := internAdd st.data.query_response_signatures st.qs
  { st with data := { st.data with query_response_signatures := r.1 },
            qri := { st.qri with signature := some r.2 } }

/-- The body of `writeBasic` once the leading message `d` is chosen
(blockcborwriter.cpp:136-265).  Besides the updated writer state it
returns the final value of the local signature `qs`, so that claims
about signature fields can observe it directly. -/
def writeBasicCore (config : Configuration) (qr : QueryResponse)
    (stats : PacketStatistics) (d : DNSMessage) (w : WriterState) :
    WriterState × QueryResponseSignature :=
  let exclude := config.exclude_hints
  let w := updateBlockStats stats w
  let data := updTimes config d.timestamp w.data
  let st : InProgress :=
    { data := data, qri := { w.query_response with qr_flags := 0 }, qs := {} }
  let st := sigBasicInfo config qr d st
  let st := itemBasicInfo config d st
  let st := firstQueryInfo exclude d st
  let st := querySideInfo exclude qr.query st
  let st := responseSideInfo exclude qr.response st
  let st := delayInfo exclude qr st
  let st := finishSignature exclude st
  ({ w with data := st.data, query_response := st.qri }, st.qs)

/-- `BlockCborWriter::writeBasic` with the final local signature
exposed; `none` models the dereference on a transaction with neither
side (line 136). -/
def writeBasicFull (config : Configuration) (qr : QueryResponse)
    (stats : PacketStatistics) (w : WriterState) :
    Option (WriterState × QueryResponseSignature) :=
  (leadingMsg qr).map fun d => writeBasicCore config qr stats d w

/-- `BlockCborWriter::writeBasic` (blockcborwriter.cpp:133-265). -/
def writeBasic (config : Configuration) (qr : QueryResponse)
    (stats : PacketStatistics) (w : WriterState) : Option WriterState :=
  (writeBasicFull config qr stats w).map Prod.fst

/-! ### Traces of writer operations -/

/-- The two operations that touch the statistics-windowing state:
every ingest path calls `updateBlockStats` (via `writeBasic` /
`writeAE`) and every flush path calls `writeBlock` (via `startRecord`
on a full block, or `close`). -/
inductive StatsEvent where
  | upd (stats : PacketStatistics)
  | flush
  deriving DecidableEq

/-- One step of the statistics-windowing machine. -/
def statsStep (w : WriterState) : StatsEvent → WriterState
  | StatsEvent.upd stats => updateBlockStats stats w
  | StatsEvent.flush => writeBlock w

/-- Run a list of statistics events. -/
def statsRun (w : WriterState) (es : List StatsEvent) : WriterState :=
  es.foldl statsStep w

/-- `statsGoodFlushes w es` holds when along the run of `es` from `w`
every flush happens on a block that has already received at least one
`updateBlockStats` (its `need_start_block_stats` flag is clear) — true
of every block that carries at least one record. -/
def statsGoodFlushes (w : WriterState) : List StatsEvent → Bool
  | [] => true
  | e :: es =>
    (match e with
     | StatsEvent.flush => !w.need_start_block_stats
     | StatsEvent.upd _ => true) && statsGoodFlushes (statsStep w e) es

/-- Consecutive flushed blocks chain their statistics windows:
each block's `start_packet_statistics` equals its predecessor's
`last_packet_statistics`. -/
def statsChained : List BlockData → Prop
  | b1 :: b2 :: rest => b2.start_packet_statistics = b1.last_packet_statistics ∧
      statsChained (b2 :: rest)
  | _ => True

instance : DecidablePred statsChained := fun l => by
  induction l with
  | nil => exact .isTrue trivial
  | cons b rest ih =>
    cases rest with
    | nil => exact .isTrue trivial
    | cons b2 rest2 =>
      unfold statsChained
      exact @instDecidableAnd _ _ inferInstance ih

/-- One transaction fed to the writer through the basic path:
`writeBasic` followed by `endRecord`. -/
def recordRun (config : Configuration) :
    List (QueryResponse × PacketStatistics) → WriterState → Option WriterState
  | [], w => some w
  | (qr, stats) :: rest, w =>
    (writeBasic config qr stats w).bind fun w1 => recordRun config rest (endRecord w1)

/-- The leading timestamps of a batch of transactions. -/
def leadTimestamps (recs : List (QueryResponse × PacketStatistics)) : List Int :=
  recs.filterMap fun p => (leadingMsg p.1).map DNSMessage.timestamp

/-- Minimum of a timestamp list, `none` when empty. -/
def minTs : List Int → Option Int
  | [] => none
  | t :: ts => some (ts.foldl min t)

/-- Maximum of a timestamp list, `none` when empty. -/
def maxTs : List Int → Option Int
  | [] => none
  | t :: ts => some (ts.foldl max t)

/-- The full per-record ingest alphabet, for file-level runs. -/
inductive RecOp where
  | start (qr : QueryResponse)
  | basic (qr : QueryResponse) (stats : PacketStatistics)
  | endr
  deriving DecidableEq

/-- One ingest step. -/
def recStep (config : Configuration) (w : WriterState) : RecOp → Option WriterState
  | RecOp.start qr => startRecord config qr w
  | RecOp.basic qr stats => writeBasic config qr stats w
  | RecOp.endr => some (endRecord w)

/-- Run a list of ingest operations. -/
def recRun (config : Configuration) : List RecOp → WriterState → Option WriterState
  | [], w => some w
  | op :: ops, w => (recStep config w op).bind (recRun config ops)

/-! ## Helper lemmas -/

theorem listResize_length (l : List Nat) (n : Nat) : (listResize l n).length = n := by
  simp [listResize]
  omega

theorem mapLast_length (f : Nat → Nat) (l : List Nat) :
    (mapLast f l).length = l.length := by
  induction l with
  | nil => rfl
  | cons b rest ih =>
    cases rest with
    | nil => rfl
    | cons b2 rest2 => simpa [mapLast_cons_cons] using ih

theorem mapLast_getLast? (f : Nat → Nat) (l : List Nat) :
    (mapLast f l).getLast? = l.getLast?.map f := by
  induction l with
  | nil => rfl
  | cons b rest ih =>
    cases rest with
    | nil => rfl
    | cons b2 rest2 =>
      rw [mapLast_cons_cons]
      cases hml : mapLast f (b2 :: rest2) with
      | nil =>
        have := mapLast_length f (b2 :: rest2)
        rw [hml] at this
        simp at this
      | cons c cs =>
        rw [hml] at ih
        rw [List.getLast?_cons_cons, List.getLast?_cons_cons, ih]

theorem mapLast_mapLast (f g : Nat → Nat) (l : List Nat) :
    mapLast f (mapLast g l) = mapLast (fun b => f (g b)) l := by
  induction l with
  | nil => rfl
  | cons b rest ih =>
    cases rest with
    | nil => rfl
    | cons b2 rest2 =>
      cases hml : mapLast g (b2 :: rest2) with
      | nil =>
        have := mapLast_length g (b2 :: rest2)
        rw [hml] at this
        simp at this
      | cons c cs =>
        have h1 : mapLast g (b :: b2 :: rest2) = b :: c :: cs := by
          rw [mapLast_cons_cons, hml]
        rw [h1, mapLast_cons_cons, mapLast_cons_cons, ← hml, ih]

/-- Low `s` bits of a byte masked with `0xff << s` are zero. -/
theorem maskedByte_mod (b s : Nat) : ((b &&& (0xff <<< s)) % 256) % 2 ^ s = 0 := by
  apply Nat.eq_of_testBit_eq
  intro i
  have h256 : (256 : Nat) = 2 ^ 8 := by norm_num
  rw [h256]
  simp only [Nat.testBit_mod_two_pow, Nat.testBit_land, Nat.testBit_shiftLeft,
    Nat.zero_testBit]
  by_cases hi : i < s
  · have hle : ¬ (s ≤ i) := by omega
    simp [hle]
  · simp [hi]

/-- Masking a byte with `0xff << s` (and storing it back into a byte)
is idempotent. -/
theorem maskedByte_idem (b s : Nat) :
    ((((b &&& (0xff <<< s)) % 256) &&& (0xff <<< s)) % 256)
      = (b &&& (0xff <<< s)) % 256 := by
  apply Nat.eq_of_testBit_eq
  intro i
  have h256 : (256 : Nat) = 2 ^ 8 := by norm_num
  rw [h256]
  simp only [Nat.testBit_mod_two_pow, Nat.testBit_land, Nat.testBit_shiftLeft]
  by_cases hi : i < 8 <;> by_cases hs : s ≤ i <;>
    simp [hi, hs, Bool.and_assoc, Bool.and_comm, Bool.and_left_comm]

theorem listResize_self (l : List Nat) : listResize l l.length = l := by
  simp [listResize]

theorem maskBytes_length (bytes : List Nat) (p : Nat) :
    (maskBytes bytes p).length = (p + 7) / 8 := by
  rw [maskBytes]
  by_cases h : (p + 7) / 8 > 0
  · simp only [h, if_true]
    rw [mapLast_length, listResize_length]
  · simp only [h, if_false]
    rw [listResize_length]

theorem maskBytes_idem (bytes : List Nat) (p : Nat) :
    maskBytes (maskBytes bytes p) p = maskBytes bytes p := by
  by_cases h : (p + 7) / 8 > 0
  · conv_lhs => rw [maskBytes]
    simp only [h, if_true]
    have hlen : (maskBytes bytes p).length = (p + 7) / 8 := maskBytes_length bytes p
    rw [← hlen, listResize_self, hlen]
    conv_lhs => rw [maskBytes]
    simp only [h, if_true]
    rw [mapLast_mapLast]
    conv_rhs => rw [maskBytes]
    simp only [h, if_true]
    congr 1
    funext b
    exact maskedByte_idem b _
  · have h0 : (p + 7) / 8 = 0 := by omega
    rw [maskBytes, maskBytes]
    simp [h0, listResize]

/-! ## C3 — address masking -/

/-- C3: for every address and configured prefix length `p` (selected by
family and client/server role), the masked address has exactly
`ceil(p/8)` bytes; `p = 0` yields the empty byte string; every bit past
position `p` in the last kept byte is zero (the last byte is divisible
by `2 ^ (nbytes*8 - p)`); and masking is idempotent. -/
theorem addr_to_string_masking (addr : IPAddress) (config : Configuration)
    (is_client : Bool) :
    (addr_to_string addr config is_client).length
        = (selected_prefix_len addr config is_client + 7) / 8
    ∧ (selected_prefix_len addr config is_client = 0 →
        addr_to_string addr config is_client = [])
    ∧ (∀ b, (addr_to_string addr config is_client).getLast? = some b →
        b % 2 ^ ((selected_prefix_len addr config is_client + 7) / 8 * 8
                  - selected_prefix_len addr config is_client) = 0)
    ∧ addr_to_string ⟨addr_to_string addr config is_client, addr.is_ipv6⟩
        config is_client
      = addr_to_string addr config is_client := by
  set p := selected_prefix_len addr config is_client with hp
  refine ⟨maskBytes_length _ _, ?_, ?_, ?_⟩
  · intro h0
    rw [addr_to_string, ← hp, h0, maskBytes]
    simp [listResize]
  · intro b hb
    rw [addr_to_string, ← hp, maskBytes] at hb
    by_cases h : (p + 7) / 8 > 0
    · simp only [h, if_true] at hb
      rw [mapLast_getLast?] at hb
      match hlast : (listResize addr.asNetworkBinary ((p + 7) / 8)).getLast? with
      | none => rw [hlast] at hb; exact absurd hb (by simp)
      | some b0 =>
        rw [hlast] at hb
        simp only [Option.map_some'] at hb
        have hb2 : (b0 &&& 0xff <<< ((p + 7) / 8 * 8 - p)) % 256 = b :=
          Option.some.inj hb
        rw [← hb2]
        exact maskedByte_mod b0 _
    · have hlen : (listResize addr.asNetworkBinary ((p + 7) / 8)).length = 0 := by
        rw [listResize_length]; omega
      rw [List.length_eq_zero] at hlen
      simp only [h, if_false] at hb
      rw [hlen] at hb
      exact absurd hb (by simp)
  · show maskBytes (maskBytes addr.asNetworkBinary p) p = maskBytes addr.asNetworkBinary p
    exact maskBytes_idem _ _

/-- Witness for C3 at concrete inputs: a /0 prefix gives the empty
string, and the bits past a /24 prefix of `198.51.100.5` are zero. -/
theorem addr_to_string_masking_witness :
    addr_to_string ⟨[198, 51, 100, 5], false⟩
      { client_address_prefix_ipv4 := 0 } true = []
    ∧ 100 % 2 ^ ((24 + 7) / 8 * 8 - 24) = 0 :=
  ⟨(addr_to_string_masking ⟨[198, 51, 100, 5], false⟩
      { client_address_prefix_ipv4 := 0 } true).2.1 (by decide),
   by
    have h := (addr_to_string_masking ⟨[198, 51, 100, 5], false⟩
      { client_address_prefix_ipv4 := 24 } true).2.2.1 100 (by decide)
    simp only [show selected_prefix_len ⟨[198, 51, 100, 5], false⟩
      { client_address_prefix_ipv4 := 24 } true = 24 from rfl] at h
    exact h⟩


/-! ## C1 — the ancount/nscount/arcount exclusion gates -/

/-- The failing configuration for C1: only `query_arcount` excluded. -/
def c1Config : Configuration := { exclude_hints := { query_arcount := true } }

/-- The failing query for C1: 3 answers, 7 authority records, 9
additional records. -/
def c1Query : DNSMessage :=
  { timestamp := 100,
    dns := { answers_count := 3, authority_count := 7, additional_count := 9 } }

/-- C1 fails on the code: at a query with 3 answers, 7 authority and 9
additional records, excluding only `query_arcount`, the signature ends
with `query_ancount = 3` (as the claim says), but `query_nscount` is
left unset even though `exclude_hints.query_nscount` is off, and
`query_arcount = 9` even though `exclude_hints.query_arcount` is on:
lines 213-216 gate the `query_nscount` store by the `query_arcount`
hint and the `query_arcount` store by the `query_nscount` hint. -/
theorem writeBasic_count_gates_swapped :
    (writeBasicFull c1Config { query := some c1Query } {} {}).map
      (fun p => (p.2.query_ancount, p.2.query_nscount, p.2.query_arcount))
      = some (some 3, none, some 9) := by decide

/-! ## Projection-through-ite simp lemmas

`writeBasic`'s phases are chains of conditional record updates; these
let `simp` evaluate a projection of such a chain. -/

section IteProj

variable (c : Prop) [Decidable c]

@[simp] theorem ite_ip_qs (a b : InProgress) :
    (ite c a b).qs = ite c a.qs b.qs := apply_ite InProgress.qs c a b

@[simp] theorem ite_ip_qri (a b : InProgress) :
    (ite c a b).qri = ite c a.qri b.qri := apply_ite InProgress.qri c a b

@[simp] theorem ite_ip_data (a b : InProgress) :
    (ite c a b).data = ite c a.data b.data := apply_ite InProgress.data c a b

@[simp] theorem ite_qs_server_address (a b : QueryResponseSignature) :
    (ite c a b).server_address = ite c a.server_address b.server_address :=
  apply_ite QueryResponseSignature.server_address c a b

@[simp] theorem ite_qs_server_port (a b : QueryResponseSignature) :
    (ite c a b).server_port = ite c a.server_port b.server_port :=
  apply_ite QueryResponseSignature.server_port c a b

@[simp] theorem ite_qs_qr_transport_flags (a b : QueryResponseSignature) :
    (ite c a b).qr_transport_flags = ite c a.qr_transport_flags b.qr_transport_flags :=
  apply_ite QueryResponseSignature.qr_transport_flags c a b

@[simp] theorem ite_qs_qr_type (a b : QueryResponseSignature) :
    (ite c a b).qr_type = ite c a.qr_type b.qr_type :=
  apply_ite QueryResponseSignature.qr_type c a b

@[simp] theorem ite_qs_dns_flags (a b : QueryResponseSignature) :
    (ite c a b).dns_flags = ite c a.dns_flags b.dns_flags :=
  apply_ite QueryResponseSignature.dns_flags c a b

@[simp] theorem ite_qs_qdcount (a b : QueryResponseSignature) :
    (ite c a b).qdcount = ite c a.qdcount b.qdcount :=
  apply_ite QueryResponseSignature.qdcount c a b

@[simp] theorem ite_qs_query_classtype (a b : QueryResponseSignature) :
    (ite c a b).query_classtype = ite c a.query_classtype b.query_classtype :=
  apply_ite QueryResponseSignature.query_classtype c a b

@[simp] theorem ite_qs_query_opcode (a b : QueryResponseSignature) :
    (ite c a b).query_opcode = ite c a.query_opcode b.query_opcode :=
  apply_ite QueryResponseSignature.query_opcode c a b

@[simp] theorem ite_qs_query_rcode (a b : QueryResponseSignature) :
    (ite c a b).query_rcode = ite c a.query_rcode b.query_rcode :=
  apply_ite QueryResponseSignature.query_rcode c a b

@[simp] theorem ite_qs_query_ancount (a b : QueryResponseSignature) :
    (ite c a b).query_ancount = ite c a.query_ancount b.query_ancount :=
  apply_ite QueryResponseSignature.query_ancount c a b

@[simp] theorem ite_qs_query_nscount (a b : QueryResponseSignature) :
    (ite c a b).query_nscount = ite c a.query_nscount b.query_nscount :=
  apply_ite QueryResponseSignature.query_nscount c a b

@[simp] theorem ite_qs_query_arcount (a b : QueryResponseSignature) :
    (ite c a b).query_arcount = ite c a.query_arcount b.query_arcount :=
  apply_ite QueryResponseSignature.query_arcount c a b

@[simp] theorem ite_qs_query_edns_payload_size (a b : QueryResponseSignature) :
    (ite c a b).query_edns_payload_size
      = ite c a.query_edns_payload_size b.query_edns_payload_size :=
  apply_ite QueryResponseSignature.query_edns_payload_size c a b

@[simp] theorem ite_qs_query_edns_version (a b : QueryResponseSignature) :
    (ite c a b).query_edns_version = ite c a.query_edns_version b.query_edns_version :=
  apply_ite QueryResponseSignature.query_edns_version c a b

@[simp] theorem ite_qs_query_opt_rdata (a b : QueryResponseSignature) :
    (ite c a b).query_opt_rdata = ite c a.query_opt_rdata b.query_opt_rdata :=
  apply_ite QueryResponseSignature.query_opt_rdata c a b

@[simp] theorem ite_qs_response_rcode (a b : QueryResponseSignature) :
    (ite c a b).response_rcode = ite c a.response_rcode b.response_rcode :=
  apply_ite QueryResponseSignature.response_rcode c a b

@[simp] theorem ite_qs_qr_flags (a b : QueryResponseSignature) :
    (ite c a b).qr_flags = ite c a.qr_flags b.qr_flags :=
  apply_ite QueryResponseSignature.qr_flags c a b

@[simp] theorem ite_qri_qr_flags (a b : QueryResponseItem) :
    (ite c a b).qr_flags = ite c a.qr_flags b.qr_flags :=
  apply_ite QueryResponseItem.qr_flags c a b

@[simp] theorem ite_qri_tstamp (a b : QueryResponseItem) :
    (ite c a b).tstamp = ite c a.tstamp b.tstamp :=
  apply_ite QueryResponseItem.tstamp c a b

@[simp] theorem ite_qri_client_address (a b : QueryResponseItem) :
    (ite c a b).client_address = ite c a.client_address b.client_address :=
  apply_ite QueryResponseItem.client_address c a b

@[simp] theorem ite_qri_client_port (a b : QueryResponseItem) :
    (ite c a b).client_port = ite c a.client_port b.client_port :=
  apply_ite QueryResponseItem.client_port c a b

@[simp] theorem ite_qri_id (a b : QueryResponseItem) :
    (ite c a b).id = ite c a.id b.id :=
  apply_ite QueryResponseItem.id c a b

@[simp] theorem ite_qri_qname (a b : QueryResponseItem) :
    (ite c a b).qname = ite c a.qname b.qname :=
  apply_ite QueryResponseItem.qname c a b

@[simp] theorem ite_qri_query_size (a b : QueryResponseItem) :
    (ite c a b).query_size = ite c a.query_size b.query_size :=
  apply_ite QueryResponseItem.query_size c a b

@[simp] theorem ite_qri_response_size (a b : QueryResponseItem) :
    (ite c a b).response_size = ite c a.response_size b.response_size :=
  apply_ite QueryResponseItem.response_size c a b

@[simp] theorem ite_qri_hoplimit (a b : QueryResponseItem) :
    (ite c a b).hoplimit = ite c a.hoplimit b.hoplimit :=
  apply_ite QueryResponseItem.hoplimit c a b

@[simp] theorem ite_qri_response_delay (a b : QueryResponseItem) :
    (ite c a b).response_delay = ite c a.response_delay b.response_delay :=
  apply_ite QueryResponseItem.response_delay c a b

@[simp] theorem ite_qri_signature (a b : QueryResponseItem) :
    (ite c a b).signature = ite c a.signature b.signature :=
  apply_ite QueryResponseItem.signature c a b

@[simp] theorem ite_bd_addresses (a b : BlockData) :
    (ite c a b).addresses = ite c a.addresses b.addresses :=
  apply_ite BlockData.addresses c a b

@[simp] theorem ite_bd_class_types (a b : BlockData) :
    (ite c a b).class_types = ite c a.class_types b.class_types :=
  apply_ite BlockData.class_types c a b

@[simp] theorem ite_bd_names_rdatas (a b : BlockData) :
    (ite c a b).names_rdatas = ite c a.names_rdatas b.names_rdatas :=
  apply_ite BlockData.names_rdatas c a b

@[simp] theorem ite_bd_query_response_signatures (a b : BlockData) :
    (ite c a b).query_response_signatures
      = ite c a.query_response_signatures b.query_response_signatures :=
  apply_ite BlockData.query_response_signatures c a b

@[simp] theorem ite_bd_query_response_items (a b : BlockData) :
    (ite c a b).query_response_items
      = ite c a.query_response_items b.query_response_items :=
  apply_ite BlockData.query_response_items c a b

@[simp] theorem ite_bd_earliest_time (a b : BlockData) :
    (ite c a b).earliest_time = ite c a.earliest_time b.earliest_time :=
  apply_ite BlockData.earliest_time c a b

@[simp] theorem ite_bd_start_time (a b : BlockData) :
    (ite c a b).start_time = ite c a.start_time b.start_time :=
  apply_ite BlockData.start_time c a b

@[simp] theorem ite_bd_end_time (a b : BlockData) :
    (ite c a b).end_time = ite c a.end_time b.end_time :=
  apply_ite BlockData.end_time c a b

@[simp] theorem ite_bd_start_packet_statistics (a b : BlockData) :
    (ite c a b).start_packet_statistics
      = ite c a.start_packet_statistics b.start_packet_statistics :=
  apply_ite BlockData.start_packet_statistics c a b

@[simp] theorem ite_bd_last_packet_statistics (a b : BlockData) :
    (ite c a b).last_packet_statistics
      = ite c a.last_packet_statistics b.last_packet_statistics :=
  apply_ite BlockData.last_packet_statistics c a b

@[simp] theorem ite_ws_data (a b : WriterState) :
    (ite c a b).data = ite c a.data b.data := apply_ite WriterState.data c a b

@[simp] theorem ite_ws_query_response (a b : WriterState) :
    (ite c a b).query_response = ite c a.query_response b.query_response :=
  apply_ite WriterState.query_response c a b

@[simp] theorem ite_ws_last_end_block_statistics (a b : WriterState) :
    (ite c a b).last_end_block_statistics
      = ite c a.last_end_block_statistics b.last_end_block_statistics :=
  apply_ite WriterState.last_end_block_statistics c a b

@[simp] theorem ite_ws_need_start_block_stats (a b : WriterState) :
    (ite c a b).need_start_block_stats
      = ite c a.need_start_block_stats b.need_start_block_stats :=
  apply_ite WriterState.need_start_block_stats c a b

@[simp] theorem ite_ws_is_open (a b : WriterState) :
    (ite c a b).is_open = ite c a.is_open b.is_open :=
  apply_ite WriterState.is_open c a b

@[simp] theorem ite_ws_out (a b : WriterState) :
    (ite c a b).out = ite c a.out b.out := apply_ite WriterState.out c a b

@[simp] theorem ite_ws_flushed (a b : WriterState) :
    (ite c a b).flushed = ite c a.flushed b.flushed :=
  apply_ite WriterState.flushed c a b

end IteProj

/-! ## Phase frame and characterisation lemmas -/

theorem sigBasicInfo_qri (config : Configuration) (qr : QueryResponse)
    (d : DNSMessage) (st : InProgress) :
    (sigBasicInfo config qr d st).qri = st.qri := by
  cases hs : d.serverIP <;> cases hp : d.serverPort <;>
    simp [sigBasicInfo, hs, hp]

theorem sigBasicInfo_query_rcode (config : Configuration) (qr : QueryResponse)
    (d : DNSMessage) (st : InProgress) :
    (sigBasicInfo config qr d st).qs.query_rcode = st.qs.query_rcode := by
  cases hs : d.serverIP <;> cases hp : d.serverPort <;>
    simp [sigBasicInfo, hs, hp]

theorem sigBasicInfo_response_rcode (config : Configuration) (qr : QueryResponse)
    (d : DNSMessage) (st : InProgress) :
    (sigBasicInfo config qr d st).qs.response_rcode = st.qs.response_rcode := by
  cases hs : d.serverIP <;> cases hp : d.serverPort <;>
    simp [sigBasicInfo, hs, hp]

theorem sigBasicInfo_query_opcode (config : Configuration) (qr : QueryResponse)
    (d : DNSMessage) (st : InProgress) :
    (sigBasicInfo config qr d st).qs.query_opcode = st.qs.query_opcode := by
  cases hs : d.serverIP <;> cases hp : d.serverPort <;>
    simp [sigBasicInfo, hs, hp]

theorem itemBasicInfo_query_rcode (config : Configuration) (d : DNSMessage)
    (st : InProgress) :
    (itemBasicInfo config d st).qs.query_rcode = st.qs.query_rcode := by
  cases hs : d.clientIP <;> cases hp : d.clientPort <;>
    simp [itemBasicInfo, hs, hp]

theorem itemBasicInfo_response_rcode (config : Configuration) (d : DNSMessage)
    (st : InProgress) :
    (itemBasicInfo config d st).qs.response_rcode = st.qs.response_rcode := by
  cases hs : d.clientIP <;> cases hp : d.clientPort <;>
    simp [itemBasicInfo, hs, hp]

theorem itemBasicInfo_query_opcode (config : Configuration) (d : DNSMessage)
    (st : InProgress) :
    (itemBasicInfo config d st).qs.query_opcode = st.qs.query_opcode := by
  cases hs : d.clientIP <;> cases hp : d.clientPort <;>
    simp [itemBasicInfo, hs, hp]

theorem firstQueryInfo_query_rcode (exclude : HintsExcluded) (d : DNSMessage)
    (st : InProgress) :
    (firstQueryInfo exclude d st).qs.query_rcode = st.qs.query_rcode := by
  cases hq : d.dns.queries <;> simp [firstQueryInfo, hq]

theorem firstQueryInfo_response_rcode (exclude : HintsExcluded) (d : DNSMessage)
    (st : InProgress) :
    (firstQueryInfo exclude d st).qs.response_rcode = st.qs.response_rcode := by
  cases hq : d.dns.queries <;> simp [firstQueryInfo, hq]

theorem firstQueryInfo_query_opcode (exclude : HintsExcluded) (d : DNSMessage)
    (st : InProgress) :
    (firstQueryInfo exclude d st).qs.query_opcode = st.qs.query_opcode := by
  cases hq : d.dns.queries <;> simp [firstQueryInfo, hq]

/-- With the query-rcode hint off, the query side stores the base
rcode and, when an OPT is present, adds the shifted extended rcode
onto it (lines 209-210 and 221-222). -/
theorem querySideInfo_query_rcode (exclude : HintsExcluded) (q : DNSMessage)
    (st : InProgress) (hex : exclude.query_rcode = false) :
    (querySideInfo exclude (some q) st).qs.query_rcode =
      some (match q.dns.edns0 with
            | none => q.dns.rcode
            | some edns0 => q.dns.rcode + (edns0.extended_rcode <<< 4)) := by
  cases hw : q.wire_size <;> cases hh : q.hoplimit <;> cases he : q.dns.edns0 <;>
    simp [querySideInfo, querySideEdns, hex, hw, hh, he]

theorem querySideInfo_response_rcode (exclude : HintsExcluded)
    (qopt : Option DNSMessage) (st : InProgress) :
    (querySideInfo exclude qopt st).qs.response_rcode = st.qs.response_rcode := by
  cases qopt with
  | none => rfl
  | some q =>
    cases hw : q.wire_size <;> cases hh : q.hoplimit <;> cases he : q.dns.edns0 <;>
      simp [querySideInfo, querySideEdns, hw, hh, he]

/-- With the response-rcode hint off, the response side stores the base
rcode and, when an OPT is present, adds the shifted extended rcode
onto it (lines 243-244 and 249-250). -/
theorem responseSideInfo_response_rcode (exclude : HintsExcluded) (r : DNSMessage)
    (st : InProgress) (hex : exclude.response_rcode = false) :
    (responseSideInfo exclude (some r) st).qs.response_rcode =
      some (match r.dns.edns0 with
            | none => r.dns.rcode
            | some edns0 => r.dns.rcode + (edns0.extended_rcode <<< 4)) := by
  cases hw : r.wire_size <;> cases he : r.dns.edns0 <;>
    simp [responseSideInfo, responseSideEdns, hex, hw, he]

theorem responseSideInfo_query_rcode (exclude : HintsExcluded)
    (ropt : Option DNSMessage) (st : InProgress) :
    (responseSideInfo exclude ropt st).qs.query_rcode = st.qs.query_rcode := by
  cases ropt with
  | none => rfl
  | some r =>
    cases hw : r.wire_size <;> cases he : r.dns.edns0 <;>
      simp [responseSideInfo, responseSideEdns, hw, he]

theorem delayInfo_qs (exclude : HintsExcluded) (qr : QueryResponse)
    (st : InProgress) :
    (delayInfo exclude qr st).qs = st.qs := by
  cases hq : qr.query <;> cases hr : qr.response <;>
    simp [delayInfo, hq, hr]

theorem finishSignature_query_rcode (exclude : HintsExcluded) (st : InProgress) :
    (finishSignature exclude st).qs.query_rcode = st.qs.query_rcode := by
  simp [finishSignature]

theorem finishSignature_response_rcode (exclude : HintsExcluded) (st : InProgress) :
    (finishSignature exclude st).qs.response_rcode = st.qs.response_rcode := by
  simp [finishSignature]

theorem finishSignature_query_opcode (exclude : HintsExcluded) (st : InProgress) :
    (finishSignature exclude st).qs.query_opcode = st.qs.query_opcode := by
  simp [finishSignature]

/-- The initial in-progress triple of `writeBasic`
(blockcborwriter.cpp:136-155): block data after the time maintenance,
the re-zeroed flags of the in-progress item, a fresh signature. -/
def wbInitial (config : Configuration) (stats : PacketStatistics)
    (d : DNSMessage) (w : WriterState) : InProgress :=
  { data := updTimes config d.timestamp (updateBlockStats stats w).data,
    qri := { (updateBlockStats stats w).query_response with qr_flags := 0 },
    qs := {} }

/-- The signature value `writeBasicCore` returns is the result of the
phase chain. -/
theorem writeBasicCore_snd (config : Configuration) (qr : QueryResponse)
    (stats : PacketStatistics) (d : DNSMessage) (w : WriterState) :
    (writeBasicCore config qr stats d w).2 =
      (finishSignature config.exclude_hints
        (delayInfo config.exclude_hints qr
          (responseSideInfo config.exclude_hints qr.response
            (querySideInfo config.exclude_hints qr.query
              (firstQueryInfo config.exclude_hints d
                (itemBasicInfo config d
                  (sigBasicInfo config qr d
                    (wbInitial config stats d w)))))))).qs := rfl

/-- Adding a base rcode below 16 to a shifted extended rcode is exactly
their bitwise or. -/
theorem rcode_add_eq_or (r e : Nat) (h : r < 16) :
    r + (e <<< 4) = (e <<< 4) ||| r := by
  have h16 : e <<< 4 = 2 ^ 4 * e := by
    rw [Nat.shiftLeft_eq, Nat.mul_comm]
  rw [h16, Nat.add_comm]
  exact Nat.mul_add_lt_is_or (by omega) e

/-! ## C2 — EDNS extended rcode composition -/

/-- C2: when a transaction side carries an OPT record with extended
rcode `e` over a base 4-bit rcode `r` and the corresponding rcode hint
is off, the rcode `writeBasic` stores in the signature is
`(e <<< 4) ||| r` — on the query side into `query_rcode`, on the
response side into `response_rcode`. -/
theorem writeBasic_edns_rcode (config : Configuration) (qr : QueryResponse)
    (stats : PacketStatistics) (w : WriterState)
    (p : WriterState × QueryResponseSignature)
    (hrun : writeBasicFull config qr stats w = some p) :
    (∀ q e, qr.query = some q → q.dns.edns0 = some e →
        q.dns.rcode < 16 → config.exclude_hints.query_rcode = false →
        p.2.query_rcode = some ((e.extended_rcode <<< 4) ||| q.dns.rcode))
    ∧ (∀ r e, qr.response = some r → r.dns.edns0 = some e →
        r.dns.rcode < 16 → config.exclude_hints.response_rcode = false →
        p.2.response_rcode = some ((e.extended_rcode <<< 4) ||| r.dns.rcode)) := by
  rw [writeBasicFull] at hrun
  cases hl : leadingMsg qr with
  | none => rw [hl] at hrun; exact absurd hrun (by simp)
  | some d =>
    rw [hl] at hrun
    simp only [Option.map_some'] at hrun
    have hp : p = writeBasicCore config qr stats d w := (Option.some.inj hrun).symm
    subst hp
    constructor
    · intro q e hq he hlt hex
      rw [writeBasicCore_snd, finishSignature_query_rcode, delayInfo_qs,
        responseSideInfo_query_rcode, hq, querySideInfo_query_rcode _ _ _ hex, he]
      exact congrArg some (rcode_add_eq_or _ _ hlt)
    · intro r e hr he hlt hex
      rw [writeBasicCore_snd, finishSignature_response_rcode, delayInfo_qs, hr,
        responseSideInfo_response_rcode _ _ _ hex, he]
      exact congrArg some (rcode_add_eq_or _ _ hlt)

/-- Witness query for C2: base rcode 5, OPT with extended rcode 2. -/
def c2QueryEdns : EDNS0 := { extended_rcode := 2 }

/-- Witness response OPT for C2: extended rcode 1. -/
def c2RespEdns : EDNS0 := { extended_rcode := 1 }

/-- Witness query message for C2. -/
def c2Query : DNSMessage := { timestamp := 5, dns := { rcode := 5, edns0 := some c2QueryEdns } }

/-- Witness response message for C2. -/
def c2Resp : DNSMessage := { timestamp := 6, dns := { rcode := 3, edns0 := some c2RespEdns } }

/-- Witness transaction for C2. -/
def c2QR : QueryResponse := { query := some c2Query, response := some c2Resp }

/-- Witness for C2 at a concrete transaction: query rcode 5 with
extended rcode 2 emits `(2 <<< 4) ||| 5 = 37`; response rcode 3 with
extended rcode 1 emits `(1 <<< 4) ||| 3 = 19`. -/
theorem writeBasic_edns_rcode_witness :
    (writeBasicCore {} c2QR {} c2Query {}).2.query_rcode = some ((2 <<< 4) ||| 5)
    ∧ (writeBasicCore {} c2QR {} c2Query {}).2.response_rcode = some ((1 <<< 4) ||| 3) := by
  have h := writeBasic_edns_rcode {} c2QR {} {}
    (writeBasicCore {} c2QR {} c2Query {}) rfl
  exact ⟨h.1 c2Query c2QueryEdns rfl rfl (by decide) rfl,
         h.2 c2Resp c2RespEdns rfl rfl (by decide) rfl⟩

/-! ## C4 — block rotation in `startRecord` -/

/-- C4: when the active block is full, `startRecord` flushes exactly
one block — the current block stamped with `end_time` = the record's
leading timestamp and with the closing statistics snapshot — clears the
block, and starts the new empty block at `start_time` = that same
timestamp; when the block is not full, nothing is flushed and only the
in-progress record is reset. -/
theorem startRecord_block_rotation (config : Configuration) (qr : QueryResponse)
    (w : WriterState) (d : DNSMessage) (hl : leadingMsg qr = some d) :
    (BlockData.is_full config w.data = true →
      startRecord config qr w =
        some { w with
               data := { start_time := some d.timestamp },
               query_response := {},
               out := w.out ++ blockCborBytes
                 { w.data with end_time := some d.timestamp,
                               last_packet_statistics := w.last_end_block_statistics },
               flushed := w.flushed ++
                 [{ w.data with end_time := some d.timestamp,
                                last_packet_statistics := w.last_end_block_statistics }],
               need_start_block_stats := true })
    ∧ (BlockData.is_full config w.data = false →
      startRecord config qr w = some { w with query_response := {} }) := by
  constructor
  · intro hfull
    rw [startRecord, hfull, hl]
    simp [writeBlock]
  · intro hnotfull
    rw [startRecord, hnotfull]
    simp

/-- Witness state for C4: a writer whose block holds one record, with
`max_block_items = 1` (full) or default (not full). -/
def c4Full : WriterState :=
  { data := { query_response_items := [{ tstamp := some 3 }] } }

/-- Witness for C4 at concrete inputs: with `max_block_items = 1` and
one buffered record, `startRecord` flushes exactly that block and the
new block starts at the incoming leading timestamp 9; with the default
limit the same call flushes nothing. -/
theorem startRecord_block_rotation_witness :
    startRecord { max_block_items := 1 } { query := some { timestamp := 9 } } c4Full
      = some { c4Full with
               data := { start_time := some 9 },
               query_response := {},
               out := c4Full.out ++ blockCborBytes
                 { c4Full.data with end_time := some 9,
                                    last_packet_statistics := c4Full.last_end_block_statistics },
               flushed := [{ c4Full.data with
                             end_time := some 9,
                             last_packet_statistics := c4Full.last_end_block_statistics }],
               need_start_block_stats := true }
    ∧ startRecord {} { query := some { timestamp := 9 } } c4Full
      = some { c4Full with query_response := {} } :=
  ⟨(startRecord_block_rotation { max_block_items := 1 }
      { query := some { timestamp := 9 } } c4Full { timestamp := 9 } rfl).1 (by decide),
   (startRecord_block_rotation {} { query := some { timestamp := 9 } } c4Full
      { timestamp := 9 } rfl).2 (by decide)⟩

/-! ## Statistics windowing invariants (C5, C10) -/

/-- The statistics-windowing invariant maintained along every run:
the flushed blocks chain start/last snapshots; with the start-stats
flag clear the active block's start snapshot continues the last flushed
block; with the flag set the pending `last_end_block_statistics` value
equals the last flushed block's closing snapshot. -/
def statsInv (w : WriterState) : Prop :=
  statsChained w.flushed
  ∧ (w.need_start_block_stats = false → ∀ b, w.flushed.getLast? = some b →
      w.data.start_packet_statistics = b.last_packet_statistics)
  ∧ (w.need_start_block_stats = true → ∀ b, w.flushed.getLast? = some b →
      w.last_end_block_statistics = b.last_packet_statistics)

theorem statsChained_append (l : List BlockData) (b : BlockData)
    (hc : statsChained l)
    (hlink : ∀ x, l.getLast? = some x → b.start_packet_statistics = x.last_packet_statistics) :
    statsChained (l ++ [b]) := by
  induction l with
  | nil => exact trivial
  | cons b1 rest ih =>
    cases rest with
    | nil =>
      refine ⟨?_, trivial⟩
      exact hlink b1 rfl
    | cons b2 rest2 =>
      rw [statsChained] at hc
      refine ⟨hc.1, ?_⟩
      exact ih hc.2 (fun x hx => hlink x (by rw [List.getLast?_cons_cons]; exact hx))

theorem statsInv_upd (w : WriterState) (stats : PacketStatistics)
    (h : statsInv w) : statsInv (updateBlockStats stats w) := by
  obtain ⟨hc, hlow, hhigh⟩ := h
  by_cases hn : w.need_start_block_stats
  · refine ⟨by simpa [updateBlockStats, hn] using hc, ?_, ?_⟩
    · intro _ b hb
      simp only [updateBlockStats, hn, if_true] at hb ⊢
      exact hhigh hn b hb
    · intro hfalse
      simp [updateBlockStats, hn] at hfalse
  · have hn' : w.need_start_block_stats = false := by simpa using hn
    refine ⟨by simpa [updateBlockStats, hn'] using hc, ?_, ?_⟩
    · intro _ b hb
      simp only [updateBlockStats, hn', if_false, Bool.false_eq_true] at hb ⊢
      exact hlow hn' b hb
    · intro hfalse
      simp [updateBlockStats, hn'] at hfalse

theorem statsInv_flush (w : WriterState)
    (h : statsInv w) (hn : w.need_start_block_stats = false) :
    statsInv (writeBlock w) := by
  obtain ⟨hc, hlow, _⟩ := h
  refine ⟨?_, ?_, ?_⟩
  · simp only [writeBlock]
    refine statsChained_append _ _ hc ?_
    intro x hx
    exact hlow hn x hx
  · intro hfalse
    simp [writeBlock] at hfalse
  · intro _ b hb
    simp only [writeBlock, List.getLast?_concat] at hb
    have hb2 : ({ w.data with
        last_packet_statistics := w.last_end_block_statistics } : BlockData) = b :=
      Option.some.inj hb
    rw [← hb2]
    rfl

theorem statsInv_run (es : List StatsEvent) (w : WriterState)
    (h : statsInv w) (hgood : statsGoodFlushes w es = true) :
    statsInv (statsRun w es) := by
  induction es generalizing w with
  | nil => exact h
  | cons e es ih =>
    cases e with
    | upd stats =>
      rw [show statsGoodFlushes w (StatsEvent.upd stats :: es)
            = (true && statsGoodFlushes (statsStep w (StatsEvent.upd stats)) es)
          from rfl, Bool.true_and] at hgood
      exact ih (statsStep w (StatsEvent.upd stats)) (statsInv_upd w stats h) hgood
    | flush =>
      rw [show statsGoodFlushes w (StatsEvent.flush :: es)
            = (!w.need_start_block_stats
                && statsGoodFlushes (statsStep w StatsEvent.flush) es)
          from rfl, Bool.and_eq_true] at hgood
      have hn : w.need_start_block_stats = false := by
        have := hgood.1
        simp only [Bool.not_eq_true'] at this
        exact this
      exact ih (statsStep w StatsEvent.flush) (statsInv_flush w h hn) hgood.2

/-! ## C5 — statistics windowing across consecutive blocks -/

/-- C5: along any run of statistics updates and block flushes from a
fresh writer in which every flushed block received at least one
`updateBlockStats` (true of every block carrying a record), consecutive
flushed blocks satisfy `B2.start_packet_statistics =
B1.last_packet_statistics`; mechanism: `writeBlock` stamps the flushed
block with `last_end_block_statistics` and re-arms
`need_start_block_stats`, and an `updateBlockStats` on an armed writer
installs exactly that snapshot as the new block's start statistics
before recording the fresh counters. -/
theorem statsWindowing (es : List StatsEvent)
    (hgood : statsGoodFlushes ({} : WriterState) es = true) :
    statsChained ((statsRun ({} : WriterState) es).flushed)
    ∧ (∀ w : WriterState,
        (writeBlock w).flushed
          = w.flushed
              ++ [{ w.data with last_packet_statistics := w.last_end_block_statistics }]
        ∧ (writeBlock w).need_start_block_stats = true)
    ∧ (∀ stats : PacketStatistics, ∀ w : WriterState,
        w.need_start_block_stats = true →
        (updateBlockStats stats w).data.start_packet_statistics
            = w.last_end_block_statistics
        ∧ (updateBlockStats stats w).last_end_block_statistics = stats) := by
  refine ⟨?_, ?_, ?_⟩
  · have hinit : statsInv ({} : WriterState) := by
      refine ⟨trivial, ?_, ?_⟩
      · intro _ b hb
        simp at hb
      · intro _ b hb
        simp at hb
    exact (statsInv_run es {} hinit hgood).1
  · intro w
    exact ⟨rfl, rfl⟩
  · intro stats w hn
    constructor
    · simp [updateBlockStats, hn]
    · simp [updateBlockStats]

/-- Witness statistics values for C5/C10. -/
def pktStats1 : PacketStatistics := { processed_count := 1 }

/-- Second witness statistics value. -/
def pktStats2 : PacketStatistics := { processed_count := 2 }

/-- Witness event trace: two blocks, each touched once before its
flush. -/
def c5Events : List StatsEvent :=
  [StatsEvent.upd pktStats1, StatsEvent.flush,
   StatsEvent.upd pktStats2, StatsEvent.flush]

/-- Witness for C5: the two-block trace satisfies the chain property,
`writeBlock` re-arms the flag, and an update on an armed fresh writer
installs the zero snapshot. -/
theorem statsWindowing_witness :
    statsChained ((statsRun ({} : WriterState) c5Events).flushed)
    ∧ (writeBlock ({} : WriterState)).need_start_block_stats = true
    ∧ (updateBlockStats pktStats1 ({} : WriterState)).data.start_packet_statistics
        = ({} : WriterState).last_end_block_statistics := by
  have h := statsWindowing c5Events (by decide)
  exact ⟨h.1, (h.2.1 {}).2, (h.2.2 pktStats1 {} rfl).1⟩

/-! ## C10 — the first flushed block starts from zero counters -/

/-- The invariant behind C10: before anything is flushed the active
block's start snapshot is the value-initialised zero statistics (and,
while the flag is still armed, so is the pending last-end snapshot);
once something is flushed, the first flushed block's start snapshot is
zero. -/
def firstBlockInv (w : WriterState) : Prop :=
  (w.flushed = [] →
    w.data.start_packet_statistics = ({} : PacketStatistics)
    ∧ (w.need_start_block_stats = true →
        w.last_end_block_statistics = ({} : PacketStatistics)))
  ∧ (∀ b, w.flushed.head? = some b →
      b.start_packet_statistics = ({} : PacketStatistics))

theorem firstBlockInv_step (w : WriterState) (e : StatsEvent)
    (h : firstBlockInv w) : firstBlockInv (statsStep w e) := by
  obtain ⟨hempty, hhead⟩ := h
  cases e with
  | upd stats =>
    by_cases hn : w.need_start_block_stats
    · refine ⟨?_, ?_⟩
      · intro hfl
        simp only [statsStep, updateBlockStats, hn, if_true] at hfl ⊢
        refine ⟨((hempty hfl).2 (by simpa using hn)), ?_⟩
        intro hcontra
        simp at hcontra
      · intro b hb
        simp only [statsStep, updateBlockStats, hn, if_true] at hb
        exact hhead b hb
    · have hn' : w.need_start_block_stats = false := by simpa using hn
      refine ⟨?_, ?_⟩
      · intro hfl
        simp only [statsStep, updateBlockStats, hn', Bool.false_eq_true, if_false] at hfl ⊢
        refine ⟨(hempty hfl).1, ?_⟩
        intro hcontra
        simp [hn'] at hcontra
      · intro b hb
        simp only [statsStep, updateBlockStats, hn', Bool.false_eq_true, if_false] at hb
        exact hhead b hb
  | flush =>
    refine ⟨?_, ?_⟩
    · intro hfl
      simp only [statsStep, writeBlock] at hfl
      exact absurd hfl (by simp)
    · intro b hb
      simp only [statsStep, writeBlock] at hb
      cases hfl : w.flushed with
      | nil =>
        rw [hfl] at hb
        simp only [List.nil_append, List.head?_cons] at hb
        have hb2 := Option.some.inj hb
        rw [← hb2]
        exact (hempty hfl).1
      | cons b0 rest =>
        rw [hfl] at hb
        simp only [List.cons_append, List.head?_cons] at hb
        refine hhead b ?_
        rw [hfl, List.head?_cons]
        exact hb

theorem firstBlockInv_run (es : List StatsEvent) (w : WriterState)
    (h : firstBlockInv w) : firstBlockInv (statsRun w es) := by
  induction es generalizing w with
  | nil => exact h
  | cons e es ih => exact ih (statsStep w e) (firstBlockInv_step w e h)

/-- C10: whatever statistics updates and flushes a fresh writer
performs, the first block it ever flushes carries the
default-constructed all-zero statistics as `start_packet_statistics`:
`last_end_block_statistics_` is value-initialised and
`need_start_block_stats_` starts true, so the first
`updateBlockStats` installs the zero snapshot. -/
theorem firstBlock_start_stats_zero (es : List StatsEvent) (b : BlockData)
    (hb : ((statsRun ({} : WriterState) es).flushed).head? = some b) :
    b.start_packet_statistics = ({} : PacketStatistics) := by
  have hinit : firstBlockInv ({} : WriterState) := by
    refine ⟨?_, ?_⟩
    · intro _
      exact ⟨rfl, fun _ => rfl⟩
    · intro b hb
      simp at hb
  exact (firstBlockInv_run es {} hinit).2 b hb

/-- Witness for C10: in the one-block trace that records counters
`pktStats1` and flushes, the flushed block's start snapshot is zero. -/
theorem firstBlock_start_stats_zero_witness :
    ({ last_packet_statistics := pktStats1 } : BlockData).start_packet_statistics
      = ({} : PacketStatistics) :=
  firstBlock_start_stats_zero [StatsEvent.upd pktStats1, StatsEvent.flush]
    { last_packet_statistics := pktStats1 } (by decide)

/-! ## C6 — block time bounds -/

/-- The block data `writeBasicCore` leaves behind is the phase chain's. -/
theorem writeBasicCore_fst_data (config : Configuration) (qr : QueryResponse)
    (stats : PacketStatistics) (d : DNSMessage) (w : WriterState) :
    (writeBasicCore config qr stats d w).1.data =
      (finishSignature config.exclude_hints
        (delayInfo config.exclude_hints qr
          (responseSideInfo config.exclude_hints qr.response
            (querySideInfo config.exclude_hints qr.query
              (firstQueryInfo config.exclude_hints d
                (itemBasicInfo config d
                  (sigBasicInfo config qr d (wbInitial config stats d w)))))))).data := rfl

/-- The in-progress item `writeBasicCore` leaves behind is the phase
chain's. -/
theorem writeBasicCore_fst_qri (config : Configuration) (qr : QueryResponse)
    (stats : PacketStatistics) (d : DNSMessage) (w : WriterState) :
    (writeBasicCore config qr stats d w).1.query_response =
      (finishSignature config.exclude_hints
        (delayInfo config.exclude_hints qr
          (responseSideInfo config.exclude_hints qr.response
            (querySideInfo config.exclude_hints qr.query
              (firstQueryInfo config.exclude_hints d
                (itemBasicInfo config d
                  (sigBasicInfo config qr d (wbInitial config stats d w)))))))).qri := rfl

theorem updateBlockStats_data_times (stats : PacketStatistics) (w : WriterState) :
    (updateBlockStats stats w).data.earliest_time = w.data.earliest_time
    ∧ (updateBlockStats stats w).data.start_time = w.data.start_time
    ∧ (updateBlockStats stats w).data.end_time = w.data.end_time
    ∧ (updateBlockStats stats w).data.query_response_items
        = w.data.query_response_items := by
  by_cases hn : w.need_start_block_stats <;> simp [updateBlockStats, hn]

theorem updTimes_earliest (config : Configuration) (ts : Int) (data : BlockData) :
    (updTimes config ts data).earliest_time =
      if data.query_response_items.length = 0 || ts < data.earliest_time then ts
      else data.earliest_time := by
  cases hflag : config.start_end_times_from_data <;>
    cases hend : data.end_time <;>
    cases hstart : data.start_time <;>
      simp [updTimes, hflag, hend, hstart]

theorem updTimes_start_time (config : Configuration) (ts : Int) (data : BlockData) :
    (updTimes config ts data).start_time =
      if config.start_end_times_from_data then
        some (match data.start_time with
              | none => ts
              | some s => if ts < s then ts else s)
      else data.start_time := by
  cases hflag : config.start_end_times_from_data <;>
    cases hend : data.end_time <;>
    cases hstart : data.start_time <;>
      (simp [updTimes, hflag, hend, hstart]; try (split <;> rfl))

theorem updTimes_end_time (config : Configuration) (ts : Int) (data : BlockData) :
    (updTimes config ts data).end_time =
      if config.start_end_times_from_data then
        some (match data.end_time with
              | none => ts
              | some e => if e < ts then ts else e)
      else data.end_time := by
  cases hflag : config.start_end_times_from_data <;>
    cases hend : data.end_time <;>
    cases hstart : data.start_time <;>
      (simp [updTimes, hflag, hend, hstart]; try (split <;> rfl))

theorem updTimes_items (config : Configuration) (ts : Int) (data : BlockData) :
    (updTimes config ts data).query_response_items = data.query_response_items := by
  cases hflag : config.start_end_times_from_data <;>
    cases hend : data.end_time <;>
    cases hstart : data.start_time <;>
      simp [updTimes, hflag, hend, hstart]

theorem sigBasicInfo_data_times (config : Configuration) (qr : QueryResponse)
    (d : DNSMessage) (st : InProgress) :
    (sigBasicInfo config qr d st).data.earliest_time = st.data.earliest_time
    ∧ (sigBasicInfo config qr d st).data.start_time = st.data.start_time
    ∧ (sigBasicInfo config qr d st).data.end_time = st.data.end_time
    ∧ (sigBasicInfo config qr d st).data.query_response_items
        = st.data.query_response_items := by
  cases hs : d.serverIP <;> cases hp : d.serverPort <;>
    simp [sigBasicInfo, hs, hp]

theorem itemBasicInfo_data_times (config : Configuration) (d : DNSMessage)
    (st : InProgress) :
    (itemBasicInfo config d st).data.earliest_time = st.data.earliest_time
    ∧ (itemBasicInfo config d st).data.start_time = st.data.start_time
    ∧ (itemBasicInfo config d st).data.end_time = st.data.end_time
    ∧ (itemBasicInfo config d st).data.query_response_items
        = st.data.query_response_items := by
  cases hs : d.clientIP <;> cases hp : d.clientPort <;>
    simp [itemBasicInfo, hs, hp]

theorem firstQueryInfo_data_times (exclude : HintsExcluded) (d : DNSMessage)
    (st : InProgress) :
    (firstQueryInfo exclude d st).data.earliest_time = st.data.earliest_time
    ∧ (firstQueryInfo exclude d st).data.start_time = st.data.start_time
    ∧ (firstQueryInfo exclude d st).data.end_time = st.data.end_time
    ∧ (firstQueryInfo exclude d st).data.query_response_items
        = st.data.query_response_items := by
  cases hq : d.dns.queries <;> simp [firstQueryInfo, hq]

theorem querySideInfo_data_times (exclude : HintsExcluded)
    (qopt : Option DNSMessage) (st : InProgress) :
    (querySideInfo exclude qopt st).data.earliest_time = st.data.earliest_time
    ∧ (querySideInfo exclude qopt st).data.start_time = st.data.start_time
    ∧ (querySideInfo exclude qopt st).data.end_time = st.data.end_time
    ∧ (querySideInfo exclude qopt st).data.query_response_items
        = st.data.query_response_items := by
  cases qopt with
  | none => exact ⟨rfl, rfl, rfl, rfl⟩
  | some q =>
    cases hw : q.wire_size <;> cases hh : q.hoplimit <;> cases he : q.dns.edns0 <;>
      simp [querySideInfo, querySideEdns, hw, hh, he]

theorem responseSideInfo_data_times (exclude : HintsExcluded)
    (ropt : Option DNSMessage) (st : InProgress) :
    (responseSideInfo exclude ropt st).data.earliest_time = st.data.earliest_time
    ∧ (responseSideInfo exclude ropt st).data.start_time = st.data.start_time
    ∧ (responseSideInfo exclude ropt st).data.end_time = st.data.end_time
    ∧ (responseSideInfo exclude ropt st).data.query_response_items
        = st.data.query_response_items := by
  cases ropt with
  | none => exact ⟨rfl, rfl, rfl, rfl⟩
  | some r =>
    cases hw : r.wire_size <;> cases he : r.dns.edns0 <;>
      simp [responseSideInfo, responseSideEdns, hw, he]

theorem delayInfo_data (exclude : HintsExcluded) (qr : QueryResponse)
    (st : InProgress) :
    (delayInfo exclude qr st).data = st.data := by
  cases hq : qr.query <;> cases hr : qr.response <;> simp [delayInfo, hq, hr]

theorem finishSignature_data_times (exclude : HintsExcluded) (st : InProgress) :
    (finishSignature exclude st).data.earliest_time = st.data.earliest_time
    ∧ (finishSignature exclude st).data.start_time = st.data.start_time
    ∧ (finishSignature exclude st).data.end_time = st.data.end_time
    ∧ (finishSignature exclude st).data.query_response_items
        = st.data.query_response_items := by
  simp [finishSignature]

/-- What a successful `writeBasic` does to the block's time fields and
record list: exactly the lines-145-155 maintenance on the leading
message's timestamp, nothing else. -/
theorem writeBasic_data_times (config : Configuration) (qr : QueryResponse)
    (stats : PacketStatistics) (w w1 : WriterState) (d : DNSMessage)
    (hl : leadingMsg qr = some d)
    (hw : writeBasic config qr stats w = some w1) :
    w1.data.earliest_time
      = (if w.data.query_response_items.length = 0
            || d.timestamp < w.data.earliest_time
         then d.timestamp else w.data.earliest_time)
    ∧ w1.data.start_time
      = (if config.start_end_times_from_data then
           some (match w.data.start_time with
                 | none => d.timestamp
                 | some s => if d.timestamp < s then d.timestamp else s)
         else w.data.start_time)
    ∧ w1.data.end_time
      = (if config.start_end_times_from_data then
           some (match w.data.end_time with
                 | none => d.timestamp
                 | some e => if e < d.timestamp then d.timestamp else e)
         else w.data.end_time)
    ∧ w1.data.query_response_items = w.data.query_response_items := by
  rw [writeBasic, writeBasicFull, hl] at hw
  simp only [Option.map_some'] at hw
  have hw1 : w1 = (writeBasicCore config qr stats d w).1 := (Option.some.inj hw).symm
  subst hw1
  have hubs := updateBlockStats_data_times stats w
  refine ⟨?_, ?_, ?_, ?_⟩
  · rw [writeBasicCore_fst_data,
      (finishSignature_data_times _ _).1, delayInfo_data,
      (responseSideInfo_data_times _ _ _).1, (querySideInfo_data_times _ _ _).1,
      (firstQueryInfo_data_times _ _ _).1, (itemBasicInfo_data_times _ _ _).1,
      (sigBasicInfo_data_times _ _ _ _).1]
    show (updTimes config d.timestamp (updateBlockStats stats w).data).earliest_time = _
    rw [updTimes_earliest, hubs.1, hubs.2.2.2]
  · rw [writeBasicCore_fst_data,
      (finishSignature_data_times _ _).2.1, delayInfo_data,
      (responseSideInfo_data_times _ _ _).2.1, (querySideInfo_data_times _ _ _).2.1,
      (firstQueryInfo_data_times _ _ _).2.1, (itemBasicInfo_data_times _ _ _).2.1,
      (sigBasicInfo_data_times _ _ _ _).2.1]
    show (updTimes config d.timestamp (updateBlockStats stats w).data).start_time = _
    rw [updTimes_start_time, hubs.2.1]
  · rw [writeBasicCore_fst_data,
      (finishSignature_data_times _ _).2.2.1, delayInfo_data,
      (responseSideInfo_data_times _ _ _).2.2.1, (querySideInfo_data_times _ _ _).2.2.1,
      (firstQueryInfo_data_times _ _ _).2.2.1, (itemBasicInfo_data_times _ _ _).2.2.1,
      (sigBasicInfo_data_times _ _ _ _).2.2.1]
    show (updTimes config d.timestamp (updateBlockStats stats w).data).end_time = _
    rw [updTimes_end_time, hubs.2.2.1]
  · rw [writeBasicCore_fst_data,
      (finishSignature_data_times _ _).2.2.2, delayInfo_data,
      (responseSideInfo_data_times _ _ _).2.2.2, (querySideInfo_data_times _ _ _).2.2.2,
      (firstQueryInfo_data_times _ _ _).2.2.2, (itemBasicInfo_data_times _ _ _).2.2.2,
      (sigBasicInfo_data_times _ _ _ _).2.2.2]
    show (updTimes config d.timestamp (updateBlockStats stats w).data).query_response_items = _
    rw [updTimes_items, hubs.2.2.2]

theorem minTs_append (l : List Int) (a : Int) :
    minTs (l ++ [a])
      = some (match minTs l with
              | none => a
              | some m => min m a) := by
  cases l with
  | nil => rfl
  | cons t ts => simp [minTs, List.foldl_append]

theorem maxTs_append (l : List Int) (a : Int) :
    maxTs (l ++ [a])
      = some (match maxTs l with
              | none => a
              | some m => max m a) := by
  cases l with
  | nil => rfl
  | cons t ts => simp [maxTs, List.foldl_append]

theorem leadTimestamps_cons (qr : QueryResponse) (stats : PacketStatistics)
    (rest : List (QueryResponse × PacketStatistics)) (d : DNSMessage)
    (hl : leadingMsg qr = some d) :
    leadTimestamps ((qr, stats) :: rest)
      = d.timestamp :: leadTimestamps rest := by
  simp [leadTimestamps, List.filterMap_cons, hl]

/-- The C6 induction invariant: after ingesting records with leading
timestamps `l` into an initially fresh block, the record count matches,
`earliest_time` bounds every timestamp from below, and with
`start_end_times_from_data` the block's start/end times are the exact
minimum/maximum. -/
def timeInv (config : Configuration) (l : List Int) (w : WriterState) : Prop :=
  w.data.query_response_items.length = l.length
  ∧ (∀ t ∈ l, w.data.earliest_time ≤ t)
  ∧ (config.start_end_times_from_data = true →
      w.data.start_time = minTs l ∧ w.data.end_time = maxTs l)

theorem timeInv_step (config : Configuration) (l : List Int) (w w1 : WriterState)
    (qr : QueryResponse) (stats : PacketStatistics) (d : DNSMessage)
    (hl : leadingMsg qr = some d)
    (hw : writeBasic config qr stats w = some w1)
    (hinv : timeInv config l w) :
    timeInv config (l ++ [d.timestamp]) (endRecord w1) := by
  obtain ⟨hlen, hearly, hminmax⟩ := hinv
  obtain ⟨he, hs, hend, hitems⟩ := writeBasic_data_times config qr stats w w1 d hl hw
  refine ⟨?_, ?_, ?_⟩
  · show (w1.data.query_response_items ++ [w1.query_response]).length = _
    rw [hitems]
    simp [hlen]
  · intro t ht
    have hearly1 : (endRecord w1).data.earliest_time = w1.data.earliest_time := rfl
    rw [hearly1, he]
    rcases List.mem_append.mp ht with hmem | hmem
    · have hbound := hearly t hmem
      split
      · rename_i hcond
        rw [Bool.or_eq_true, decide_eq_true_eq, decide_eq_true_eq] at hcond
        rcases hcond with hzero | hlt
        · have hl0 : l = [] := List.length_eq_zero.mp (hlen ▸ hzero)
          rw [hl0] at hmem
          exact absurd hmem (by simp)
        · omega
      · exact hbound
    · have hmem2 : t = d.timestamp := by simpa using hmem
      subst hmem2
      split
      · omega
      · rename_i hcond
        rw [Bool.or_eq_true] at hcond
        push_neg at hcond
        simp only [ne_eq, decide_eq_true_eq] at hcond
        omega
  · intro hflag
    obtain ⟨hsmin, hemax⟩ := hminmax hflag
    have hs1 : (endRecord w1).data.start_time = w1.data.start_time := rfl
    have he1 : (endRecord w1).data.end_time = w1.data.end_time := rfl
    constructor
    · rw [hs1, hs, if_pos hflag, hsmin, minTs_append]
      cases hmin : minTs l with
      | none => rfl
      | some m =>
        show some (if d.timestamp < m then d.timestamp else m) = some (min m d.timestamp)
        congr 1
        rw [min_def]
        split <;> split <;> omega
    · rw [he1, hend, if_pos hflag, hemax, maxTs_append]
      cases hmax : maxTs l with
      | none => rfl
      | some m =>
        show some (if m < d.timestamp then d.timestamp else m) = some (max m d.timestamp)
        congr 1
        rw [max_def]
        split <;> split <;> omega

theorem timeInv_run (config : Configuration)
    (recs : List (QueryResponse × PacketStatistics)) (w w1 : WriterState)
    (l : List Int) (hinv : timeInv config l w)
    (hrun : recordRun config recs w = some w1) :
    timeInv config (l ++ leadTimestamps recs) w1 := by
  induction recs generalizing w l with
  | nil =>
    have hw1 : w = w1 := Option.some.inj hrun
    subst hw1
    have hnil : leadTimestamps ([] : List (QueryResponse × PacketStatistics)) = [] := rfl
    rw [hnil, List.append_nil]
    exact hinv
  | cons p rest ih =>
    obtain ⟨qr, stats⟩ := p
    cases hwb : writeBasic config qr stats w with
    | none =>
      rw [recordRun, hwb] at hrun
      exact absurd hrun (by simp)
    | some wmid =>
      rw [recordRun, hwb] at hrun
      rw [Option.some_bind] at hrun
      cases hl : leadingMsg qr with
      | none =>
        rw [writeBasic, writeBasicFull, hl] at hwb
        exact absurd hwb (by simp)
      | some d =>
        have hstep := timeInv_step config l w wmid qr stats d hl hwb hinv
        have hrec := ih (endRecord wmid) (l ++ [d.timestamp]) hstep hrun
        rw [leadTimestamps_cons qr stats rest d hl]
        rw [List.append_assoc] at hrec
        exact hrec

/-- C6: feeding any batch of transactions through
`writeBasic`/`endRecord` into a fresh block leaves `earliest_time` at
or below every record's leading timestamp, and — when
`start_end_times_from_data` is configured — leaves `start_time` as the
exact minimum and `end_time` as the exact maximum of those
timestamps. -/
theorem writeBasic_time_bounds (config : Configuration)
    (recs : List (QueryResponse × PacketStatistics)) (w0 w1 : WriterState)
    (hfresh : w0.data = {})
    (hrun : recordRun config recs w0 = some w1) :
    (∀ t ∈ leadTimestamps recs, w1.data.earliest_time ≤ t)
    ∧ (config.start_end_times_from_data = true →
        w1.data.start_time = minTs (leadTimestamps recs)
        ∧ w1.data.end_time = maxTs (leadTimestamps recs)) := by
  have hinit : timeInv config [] w0 := by
    refine ⟨?_, ?_, ?_⟩
    · rw [hfresh]
      rfl
    · intro t ht
      exact absurd ht (by simp)
    · intro _
      rw [hfresh]
      exact ⟨rfl, rfl⟩
  have h := timeInv_run config recs w0 w1 [] hinit hrun
  rw [List.nil_append] at h
  exact ⟨h.2.1, h.2.2⟩

/-- Witness configuration for C6: data-driven block times. -/
def c6Config : Configuration := { start_end_times_from_data := true }

/-- Witness batch for C6: two query-only transactions at timestamps
10 and 4. -/
def c6Recs : List (QueryResponse × PacketStatistics) :=
  [({ query := some { timestamp := 10 } }, {}),
   ({ query := some { timestamp := 4 } }, {})]

/-- Witness for C6: on the concrete two-record batch the run succeeds
and leaves `start_time = 4`, `end_time = 10` and `earliest_time ≤ 4`. -/
theorem writeBasic_time_bounds_witness :
    (recordRun c6Config c6Recs ({} : WriterState)).elim False
      (fun w1 => w1.data.start_time = some 4 ∧ w1.data.end_time = some 10
        ∧ w1.data.earliest_time ≤ 4) := by
  cases hrun : recordRun c6Config c6Recs ({} : WriterState) with
  | none => exact absurd hrun (by decide)
  | some w1 =>
    have h := writeBasic_time_bounds c6Config c6Recs {} w1 rfl hrun
    have hse := h.2 rfl
    have hs := hse.1
    have he := hse.2
    rw [show minTs (leadTimestamps c6Recs) = some 4 from by decide] at hs
    rw [show maxTs (leadTimestamps c6Recs) = some 10 from by decide] at he
    have hearly := h.1 4 (by decide)
    exact ⟨hs, he, hearly⟩

/-! ## Intern table lookup lemmas -/

theorem indexOf?_getElem? [DecidableEq α] (l : List α) (v : α) :
    ∀ i, l.indexOf? v = some i → l[i]? = some v := by
  induction l with
  | nil =>
    intro i h
    simp at h
  | cons x xs ih =>
    intro i h
    rw [List.indexOf?_cons] at h
    by_cases hx : x = v
    · rw [if_pos (by simp [hx])] at h
      have h0 : i = 0 := (Option.some.inj h).symm
      subst h0
      simp [hx]
    · rw [if_neg (by simp [hx])] at h
      cases hio : xs.indexOf? v with
      | none =>
        rw [hio] at h
        simp at h
      | some j =>
        rw [hio] at h
        simp only [Option.map_some'] at h
        have hij : j.succ = i := Option.some.inj h
        subst hij
        simpa using ih j hio

/-- The interned value is found at the returned index. -/
theorem internAdd_get [DecidableEq α] (l : List α) (v : α) :
    ((internAdd l v).1)[(internAdd l v).2]? = some v := by
  unfold internAdd
  cases hio : l.indexOf? v with
  | some i =>
    exact indexOf?_getElem? l v i hio
  | none =>
    simp

/-- Interning never disturbs existing entries. -/
theorem internAdd_get?_mono [DecidableEq α] (l : List α) (v x : α) (i : Nat)
    (h : l[i]? = some x) : ((internAdd l v).1)[i]? = some x := by
  unfold internAdd
  cases hio : l.indexOf? v with
  | some j => exact h
  | none =>
    have hi : i < l.length := by
      by_contra hge
      rw [List.getElem?_eq_none (by omega)] at h
      exact absurd h (by simp)
    show (l ++ [v])[i]? = some x
    rw [List.getElem?_append, if_pos hi]
    exact h

/-! ## Characterisation and frame lemmas for C8/C9 -/

theorem sigBasicInfo_server_address (config : Configuration) (qr : QueryResponse)
    (d : DNSMessage) (st : InProgress) (ip : IPAddress)
    (hex : config.exclude_hints.server_address = false)
    (hip : d.serverIP = some ip) :
    (sigBasicInfo config qr d st).qs.server_address
        = some (internAdd st.data.addresses (addr_to_string ip config false)).2
    ∧ (sigBasicInfo config qr d st).data.addresses
        = (internAdd st.data.addresses (addr_to_string ip config false)).1 := by
  cases hp : d.serverPort <;> simp [sigBasicInfo, hex, hip, hp]

theorem sigBasicInfo_server_port (config : Configuration) (qr : QueryResponse)
    (d : DNSMessage) (st : InProgress) (pt : Nat)
    (hex : config.exclude_hints.server_port = false)
    (hp : d.serverPort = some pt) :
    (sigBasicInfo config qr d st).qs.server_port = some pt := by
  cases hs : d.serverIP <;> simp [sigBasicInfo, hex, hs, hp]

theorem sigBasicInfo_qs_misc (config : Configuration) (qr : QueryResponse)
    (d : DNSMessage) (st : InProgress) :
    (sigBasicInfo config qr d st).qs.qdcount = st.qs.qdcount
    ∧ (sigBasicInfo config qr d st).qs.query_classtype = st.qs.query_classtype := by
  cases hs : d.serverIP <;> cases hp : d.serverPort <;> simp [sigBasicInfo, hs, hp]

theorem sigBasicInfo_data_tables (config : Configuration) (qr : QueryResponse)
    (d : DNSMessage) (st : InProgress) :
    (sigBasicInfo config qr d st).data.names_rdatas = st.data.names_rdatas
    ∧ (sigBasicInfo config qr d st).data.class_types = st.data.class_types := by
  cases hs : d.serverIP <;> cases hp : d.serverPort <;> simp [sigBasicInfo, hs, hp]

theorem itemBasicInfo_tstamp (config : Configuration) (d : DNSMessage)
    (st : InProgress) (hex : config.exclude_hints.timestamp = false) :
    (itemBasicInfo config d st).qri.tstamp = some d.timestamp := by
  cases hs : d.clientIP <;> cases hp : d.clientPort <;>
    simp [itemBasicInfo, hex, hs, hp]

theorem itemBasicInfo_client_port (config : Configuration) (d : DNSMessage)
    (st : InProgress) (pt : Nat)
    (hex : config.exclude_hints.client_port = false)
    (hp : d.clientPort = some pt) :
    (itemBasicInfo config d st).qri.client_port = some pt := by
  cases hs : d.clientIP <;> simp [itemBasicInfo, hex, hs, hp]

theorem itemBasicInfo_id (config : Configuration) (d : DNSMessage)
    (st : InProgress) (hex : config.exclude_hints.transaction_id = false) :
    (itemBasicInfo config d st).qri.id = some d.dns.id := by
  cases hs : d.clientIP <;> cases hp : d.clientPort <;>
    simp [itemBasicInfo, hex, hs, hp]

theorem itemBasicInfo_qdcount (config : Configuration) (d : DNSMessage)
    (st : InProgress) (hex : config.exclude_hints.query_qdcount = false) :
    (itemBasicInfo config d st).qs.qdcount = some d.dns.questions_count := by
  cases hs : d.clientIP <;> cases hp : d.clientPort <;>
    simp [itemBasicInfo, hex, hs, hp]

theorem itemBasicInfo_client_address (config : Configuration) (d : DNSMessage)
    (st : InProgress) (ip : IPAddress)
    (hex : config.exclude_hints.client_address = false)
    (hip : d.clientIP = some ip) :
    (itemBasicInfo config d st).qri.client_address
        = some (internAdd st.data.addresses (addr_to_string ip config true)).2
    ∧ (itemBasicInfo config d st).data.addresses
        = (internAdd st.data.addresses (addr_to_string ip config true)).1 := by
  cases hp : d.clientPort <;> simp [itemBasicInfo, hex, hip, hp]

theorem itemBasicInfo_addresses_mono (config : Configuration) (d : DNSMessage)
    (st : InProgress) (i : Nat) (x : List Nat)
    (h : st.data.addresses[i]? = some x) :
    (itemBasicInfo config d st).data.addresses[i]? = some x := by
  cases hs : d.clientIP <;> cases hp : d.clientPort <;>
    simp [itemBasicInfo, hs, hp] <;>
    (try split) <;> (try exact h) <;>
    exact internAdd_get?_mono _ _ _ _ h

theorem itemBasicInfo_qs_server (config : Configuration) (d : DNSMessage)
    (st : InProgress) :
    (itemBasicInfo config d st).qs.server_address = st.qs.server_address
    ∧ (itemBasicInfo config d st).qs.server_port = st.qs.server_port
    ∧ (itemBasicInfo config d st).qs.query_classtype = st.qs.query_classtype := by
  cases hs : d.clientIP <;> cases hp : d.clientPort <;>
    simp [itemBasicInfo, hs, hp]

theorem itemBasicInfo_data_tables (config : Configuration) (d : DNSMessage)
    (st : InProgress) :
    (itemBasicInfo config d st).data.names_rdatas = st.data.names_rdatas
    ∧ (itemBasicInfo config d st).data.class_types = st.data.class_types := by
  cases hs : d.clientIP <;> cases hp : d.clientPort <;>
    simp [itemBasicInfo, hs, hp]

theorem itemBasicInfo_qri_qr_flags (config : Configuration) (d : DNSMessage)
    (st : InProgress) :
    (itemBasicInfo config d st).qri.qr_flags = st.qri.qr_flags := by
  cases hs : d.clientIP <;> cases hp : d.clientPort <;>
    simp [itemBasicInfo, hs, hp]

theorem firstQueryInfo_qr_flags (exclude : HintsExcluded) (d : DNSMessage)
    (st : InProgress) :
    (firstQueryInfo exclude d st).qri.qr_flags =
      match d.dns.queries with
      | [] => st.qri.qr_flags ||| QUERY_HAS_NO_QUESTION
      | _ :: _ => st.qri.qr_flags := by
  cases hq : d.dns.queries <;> simp [firstQueryInfo, hq]

theorem firstQueryInfo_qname (exclude : HintsExcluded) (d : DNSMessage)
    (st : InProgress) (query : DNSQuestion) (rest : List DNSQuestion)
    (hq : d.dns.queries = query :: rest)
    (hexn : exclude.query_name = false) :
    (firstQueryInfo exclude d st).qri.qname
        = some (internAdd st.data.names_rdatas query.dname).2
    ∧ (firstQueryInfo exclude d st).data.names_rdatas
        = (internAdd st.data.names_rdatas query.dname).1 := by
  by_cases hc : exclude.query_class_type <;>
    simp [firstQueryInfo, hq, hexn, hc]

theorem firstQueryInfo_classtype (exclude : HintsExcluded) (d : DNSMessage)
    (st : InProgress) (query : DNSQuestion) (rest : List DNSQuestion)
    (hq : d.dns.queries = query :: rest)
    (hexc : exclude.query_class_type = false) :
    (firstQueryInfo exclude d st).qs.query_classtype
        = some (internAdd st.data.class_types
            { qtype := query.query_type, qclass := query.query_class }).2
    ∧ (firstQueryInfo exclude d st).data.class_types
        = (internAdd st.data.class_types
            { qtype := query.query_type, qclass := query.query_class }).1 := by
  by_cases hn : exclude.query_name <;>
    simp [firstQueryInfo, hq, hexc, hn]

theorem firstQueryInfo_qri_frame (exclude : HintsExcluded) (d : DNSMessage)
    (st : InProgress) :
    (firstQueryInfo exclude d st).qri.tstamp = st.qri.tstamp
    ∧ (firstQueryInfo exclude d st).qri.client_address = st.qri.client_address
    ∧ (firstQueryInfo exclude d st).qri.client_port = st.qri.client_port
    ∧ (firstQueryInfo exclude d st).qri.id = st.qri.id := by
  cases hq : d.dns.queries <;> simp [firstQueryInfo, hq]

theorem firstQueryInfo_qs_frame (exclude : HintsExcluded) (d : DNSMessage)
    (st : InProgress) :
    (firstQueryInfo exclude d st).qs.server_address = st.qs.server_address
    ∧ (firstQueryInfo exclude d st).qs.server_port = st.qs.server_port
    ∧ (firstQueryInfo exclude d st).qs.qdcount = st.qs.qdcount := by
  cases hq : d.dns.queries <;> simp [firstQueryInfo, hq]

theorem firstQueryInfo_addresses (exclude : HintsExcluded) (d : DNSMessage)
    (st : InProgress) :
    (firstQueryInfo exclude d st).data.addresses = st.data.addresses := by
  cases hq : d.dns.queries <;> simp [firstQueryInfo, hq]

theorem responseSideInfo_data (exclude : HintsExcluded)
    (ropt : Option DNSMessage) (st : InProgress) :
    (responseSideInfo exclude ropt st).data = st.data := by
  cases ropt with
  | none => rfl
  | some r =>
    cases hw : r.wire_size <;> cases he : r.dns.edns0 <;>
      simp [responseSideInfo, responseSideEdns, hw, he]

theorem responseSideInfo_qri_frame (exclude : HintsExcluded)
    (ropt : Option DNSMessage) (st : InProgress) :
    (responseSideInfo exclude ropt st).qri.tstamp = st.qri.tstamp
    ∧ (responseSideInfo exclude ropt st).qri.client_address = st.qri.client_address
    ∧ (responseSideInfo exclude ropt st).qri.client_port = st.qri.client_port
    ∧ (responseSideInfo exclude ropt st).qri.id = st.qri.id
    ∧ (responseSideInfo exclude ropt st).qri.qname = st.qri.qname := by
  cases ropt with
  | none => exact ⟨rfl, rfl, rfl, rfl, rfl⟩
  | some r =>
    cases hw : r.wire_size <;> cases he : r.dns.edns0 <;>
      simp [responseSideInfo, responseSideEdns, hw, he]

theorem responseSideInfo_qs_frame (exclude : HintsExcluded)
    (ropt : Option DNSMessage) (st : InProgress) :
    (responseSideInfo exclude ropt st).qs.server_address = st.qs.server_address
    ∧ (responseSideInfo exclude ropt st).qs.server_port = st.qs.server_port
    ∧ (responseSideInfo exclude ropt st).qs.qdcount = st.qs.qdcount
    ∧ (responseSideInfo exclude ropt st).qs.query_classtype = st.qs.query_classtype := by
  cases ropt with
  | none => exact ⟨rfl, rfl, rfl, rfl⟩
  | some r =>
    cases hw : r.wire_size <;> cases he : r.dns.edns0 <;>
      simp [responseSideInfo, responseSideEdns, hw, he]

theorem responseSideInfo_qr_flags (exclude : HintsExcluded) (r : DNSMessage)
    (st : InProgress) :
    (responseSideInfo exclude (some r) st).qri.qr_flags =
      (if r.dns.questions_count = 0 then
        (match r.dns.edns0 with
         | none => st.qri.qr_flags ||| HAS_RESPONSE
         | some _ => (st.qri.qr_flags ||| HAS_RESPONSE) ||| RESPONSE_HAS_OPT)
          ||| RESPONSE_HAS_NO_QUESTION
       else
        match r.dns.edns0 with
        | none => st.qri.qr_flags ||| HAS_RESPONSE
        | some _ => (st.qri.qr_flags ||| HAS_RESPONSE) ||| RESPONSE_HAS_OPT) := by
  cases hw : r.wire_size <;> cases he : r.dns.edns0 <;>
    by_cases h0 : r.dns.questions_count = 0 <;>
      simp [responseSideInfo, responseSideEdns, hw, he, h0]

theorem responseSideInfo_query_opcode (exclude : HintsExcluded)
    (ropt : Option DNSMessage) (st : InProgress) :
    (responseSideInfo exclude ropt st).qs.query_opcode =
      match ropt with
      | none => st.qs.query_opcode
      | some r =>
        if !exclude.query_opcode && st.qs.query_opcode.isNone
        then some r.dns.opcode else st.qs.query_opcode := by
  cases ropt with
  | none => rfl
  | some r =>
    by_cases hc : (!exclude.query_opcode && st.qs.query_opcode.isNone) = true <;>
      cases hw : r.wire_size <;> cases he : r.dns.edns0 <;>
        simp [responseSideInfo, responseSideEdns, hw, he, hc]

theorem querySideInfo_query_opcode (exclude : HintsExcluded) (q : DNSMessage)
    (st : InProgress) (hex : exclude.query_opcode = false) :
    (querySideInfo exclude (some q) st).qs.query_opcode = some q.dns.opcode := by
  cases hw : q.wire_size <;> cases hh : q.hoplimit <;> cases he : q.dns.edns0 <;>
    simp [querySideInfo, querySideEdns, hex, hw, hh, he]

theorem delayInfo_qri_frame (exclude : HintsExcluded) (qr : QueryResponse)
    (st : InProgress) :
    (delayInfo exclude qr st).qri.tstamp = st.qri.tstamp
    ∧ (delayInfo exclude qr st).qri.client_address = st.qri.client_address
    ∧ (delayInfo exclude qr st).qri.client_port = st.qri.client_port
    ∧ (delayInfo exclude qr st).qri.id = st.qri.id
    ∧ (delayInfo exclude qr st).qri.qname = st.qri.qname
    ∧ (delayInfo exclude qr st).qri.qr_flags = st.qri.qr_flags := by
  cases hq : qr.query <;> cases hr : qr.response <;> simp [delayInfo, hq, hr]

theorem finishSignature_qri_frame (exclude : HintsExcluded) (st : InProgress) :
    (finishSignature exclude st).qri.tstamp = st.qri.tstamp
    ∧ (finishSignature exclude st).qri.client_address = st.qri.client_address
    ∧ (finishSignature exclude st).qri.client_port = st.qri.client_port
    ∧ (finishSignature exclude st).qri.id = st.qri.id
    ∧ (finishSignature exclude st).qri.qname = st.qri.qname
    ∧ (finishSignature exclude st).qri.qr_flags = st.qri.qr_flags := by
  simp [finishSignature]

theorem finishSignature_qs_frame (exclude : HintsExcluded) (st : InProgress) :
    (finishSignature exclude st).qs.server_address = st.qs.server_address
    ∧ (finishSignature exclude st).qs.server_port = st.qs.server_port
    ∧ (finishSignature exclude st).qs.qdcount = st.qs.qdcount
    ∧ (finishSignature exclude st).qs.query_classtype = st.qs.query_classtype := by
  simp [finishSignature]

theorem finishSignature_data_tables (exclude : HintsExcluded) (st : InProgress) :
    (finishSignature exclude st).data.addresses = st.data.addresses
    ∧ (finishSignature exclude st).data.names_rdatas = st.data.names_rdatas
    ∧ (finishSignature exclude st).data.class_types = st.data.class_types := by
  simp [finishSignature]

theorem querySideInfo_none (exclude : HintsExcluded) (st : InProgress) :
    querySideInfo exclude none st = st := rfl

/-! ## C8 — response-only transactions take the response as leading message -/

/-- C8: for a transaction with a response but no query, `writeBasic`
draws the record's timestamp, client/server address and port,
transaction id, qdcount, and the interned qname and classtype from the
response's header and first question, and sets `QUERY_HAS_NO_QUESTION`
(bit 4) exactly when the response's question section is empty. -/
theorem writeBasic_response_only (config : Configuration) (qr : QueryResponse)
    (stats : PacketStatistics) (w : WriterState)
    (p : WriterState × QueryResponseSignature) (r : DNSMessage)
    (hq : qr.query = none) (hr : qr.response = some r)
    (hrun : writeBasicFull config qr stats w = some p) :
    (config.exclude_hints.timestamp = false →
        p.1.query_response.tstamp = some r.timestamp)
    ∧ (∀ pt, config.exclude_hints.client_port = false → r.clientPort = some pt →
        p.1.query_response.client_port = some pt)
    ∧ (config.exclude_hints.transaction_id = false →
        p.1.query_response.id = some r.dns.id)
    ∧ (config.exclude_hints.query_qdcount = false →
        p.2.qdcount = some r.dns.questions_count)
    ∧ (∀ ip, config.exclude_hints.client_address = false → r.clientIP = some ip →
        ∃ i, p.1.query_response.client_address = some i
          ∧ p.1.data.addresses[i]? = some (addr_to_string ip config true))
    ∧ (∀ ip, config.exclude_hints.server_address = false → r.serverIP = some ip →
        ∃ i, p.2.server_address = some i
          ∧ p.1.data.addresses[i]? = some (addr_to_string ip config false))
    ∧ (∀ pt, config.exclude_hints.server_port = false → r.serverPort = some pt →
        p.2.server_port = some pt)
    ∧ (∀ query rest, r.dns.queries = query :: rest →
        (config.exclude_hints.query_name = false →
          ∃ i, p.1.query_response.qname = some i
            ∧ p.1.data.names_rdatas[i]? = some query.dname)
        ∧ (config.exclude_hints.query_class_type = false →
          ∃ i, p.2.query_classtype = some i
            ∧ p.1.data.class_types[i]? = some
                { qtype := query.query_type, qclass := query.query_class }))
    ∧ Nat.testBit p.1.query_response.qr_flags 4 = decide (r.dns.queries = []) := by
  have hl : leadingMsg qr = some r := by
    rw [leadingMsg, hq, hr]
  rw [writeBasicFull, hl] at hrun
  simp only [Option.map_some'] at hrun
  have hp : p = writeBasicCore config qr stats r w := (Option.some.inj hrun).symm
  subst hp
  refine ⟨?_, ?_, ?_, ?_, ?_, ?_, ?_, ?_, ?_⟩
  · intro hex
    rw [writeBasicCore_fst_qri, (finishSignature_qri_frame _ _).1,
      (delayInfo_qri_frame _ _ _).1, (responseSideInfo_qri_frame _ _ _).1,
      hq, querySideInfo_none, (firstQueryInfo_qri_frame _ _ _).1,
      itemBasicInfo_tstamp _ _ _ hex]
  · intro pt hex hpt
    rw [writeBasicCore_fst_qri, (finishSignature_qri_frame _ _).2.2.1,
      (delayInfo_qri_frame _ _ _).2.2.1, (responseSideInfo_qri_frame _ _ _).2.2.1,
      hq, querySideInfo_none, (firstQueryInfo_qri_frame _ _ _).2.2.1,
      itemBasicInfo_client_port _ _ _ _ hex hpt]
  · intro hex
    rw [writeBasicCore_fst_qri, (finishSignature_qri_frame _ _).2.2.2.1,
      (delayInfo_qri_frame _ _ _).2.2.2.1, (responseSideInfo_qri_frame _ _ _).2.2.2.1,
      hq, querySideInfo_none, (firstQueryInfo_qri_frame _ _ _).2.2.2,
      itemBasicInfo_id _ _ _ hex]
  · intro hex
    rw [writeBasicCore_snd, (finishSignature_qs_frame _ _).2.2.1,
      delayInfo_qs, (responseSideInfo_qs_frame _ _ _).2.2.1,
      hq, querySideInfo_none, (firstQueryInfo_qs_frame _ _ _).2.2,
      itemBasicInfo_qdcount _ _ _ hex]
  · intro ip hex hip
    have hca := itemBasicInfo_client_address config r
      (sigBasicInfo config qr r (wbInitial config stats r w)) ip hex hip
    refine ⟨(internAdd (sigBasicInfo config qr r
        (wbInitial config stats r w)).data.addresses
        (addr_to_string ip config true)).2, ?_, ?_⟩
    · rw [writeBasicCore_fst_qri, (finishSignature_qri_frame _ _).2.1,
        (delayInfo_qri_frame _ _ _).2.1, (responseSideInfo_qri_frame _ _ _).2.1,
        hq, querySideInfo_none, (firstQueryInfo_qri_frame _ _ _).2.1,
        hca.1]
    · rw [writeBasicCore_fst_data, (finishSignature_data_tables _ _).1,
        delayInfo_data, responseSideInfo_data,
        hq, querySideInfo_none, firstQueryInfo_addresses, hca.2]
      exact internAdd_get _ _
  · intro ip hex hip
    have hsa := sigBasicInfo_server_address config qr r
      (wbInitial config stats r w) ip hex hip
    refine ⟨(internAdd (wbInitial config stats r w).data.addresses
        (addr_to_string ip config false)).2, ?_, ?_⟩
    · rw [writeBasicCore_snd, (finishSignature_qs_frame _ _).1,
        delayInfo_qs, (responseSideInfo_qs_frame _ _ _).1,
        hq, querySideInfo_none, (firstQueryInfo_qs_frame _ _ _).1,
        (itemBasicInfo_qs_server _ _ _).1, hsa.1]
    · rw [writeBasicCore_fst_data, (finishSignature_data_tables _ _).1,
        delayInfo_data, responseSideInfo_data,
        hq, querySideInfo_none, firstQueryInfo_addresses]
      refine itemBasicInfo_addresses_mono _ _ _ _ _ ?_
      rw [hsa.2]
      exact internAdd_get _ _
  · intro pt hex hpt
    rw [writeBasicCore_snd, (finishSignature_qs_frame _ _).2.1,
      delayInfo_qs, (responseSideInfo_qs_frame _ _ _).2.1,
      hq, querySideInfo_none, (firstQueryInfo_qs_frame _ _ _).2.1,
      (itemBasicInfo_qs_server _ _ _).2.1,
      sigBasicInfo_server_port _ _ _ _ _ hex hpt]
  · intro query rest hqs
    constructor
    · intro hexn
      have hn := firstQueryInfo_qname config.exclude_hints r
        (itemBasicInfo config r (sigBasicInfo config qr r (wbInitial config stats r w)))
        query rest hqs hexn
      refine ⟨(internAdd (itemBasicInfo config r (sigBasicInfo config qr r
          (wbInitial config stats r w))).data.names_rdatas query.dname).2, ?_, ?_⟩
      · rw [writeBasicCore_fst_qri, (finishSignature_qri_frame _ _).2.2.2.2.1,
          (delayInfo_qri_frame _ _ _).2.2.2.2.1,
          (responseSideInfo_qri_frame _ _ _).2.2.2.2,
          hq, querySideInfo_none, hn.1]
      · rw [writeBasicCore_fst_data, (finishSignature_data_tables _ _).2.1,
          delayInfo_data, responseSideInfo_data,
          hq, querySideInfo_none, hn.2]
        exact internAdd_get _ _
    · intro hexc
      have hc := firstQueryInfo_classtype config.exclude_hints r
        (itemBasicInfo config r (sigBasicInfo config qr r (wbInitial config stats r w)))
        query rest hqs hexc
      refine ⟨(internAdd (itemBasicInfo config r (sigBasicInfo config qr r
          (wbInitial config stats r w))).data.class_types
          { qtype := query.query_type, qclass := query.query_class }).2, ?_, ?_⟩
      · rw [writeBasicCore_snd, (finishSignature_qs_frame _ _).2.2.2,
          delayInfo_qs, (responseSideInfo_qs_frame _ _ _).2.2.2,
          hq, querySideInfo_none, hc.1]
      · rw [writeBasicCore_fst_data, (finishSignature_data_tables _ _).2.2,
          delayInfo_data, responseSideInfo_data,
          hq, querySideInfo_none, hc.2]
        exact internAdd_get _ _
  · rw [writeBasicCore_fst_qri, (finishSignature_qri_frame _ _).2.2.2.2.2,
      (delayInfo_qri_frame _ _ _).2.2.2.2.2, hr, responseSideInfo_qr_flags,
      hq, querySideInfo_none, firstQueryInfo_qr_flags,
      itemBasicInfo_qri_qr_flags, sigBasicInfo_qri]
    have h0 : (wbInitial config stats r w).qri.qr_flags = 0 := rfl
    rw [h0]
    cases hqs : r.dns.queries <;> cases he : r.dns.edns0 <;>
      by_cases hc0 : r.dns.questions_count = 0 <;>
        (simp [hqs, he, hc0, HAS_RESPONSE, RESPONSE_HAS_OPT,
          RESPONSE_HAS_NO_QUESTION, QUERY_HAS_NO_QUESTION]; try decide)

/-- Witness response message for C8/C9: all metadata populated, one
question. -/
def c8Question : DNSQuestion :=
  { dname := [3, 119, 119, 119, 0], query_type := 1, query_class := 1 }

/-- Witness client address for C8. -/
def c8ClientIP : IPAddress := { asNetworkBinary := [198, 51, 100, 5] }

/-- Witness server address for C8. -/
def c8ServerIP : IPAddress := { asNetworkBinary := [192, 0, 2, 1] }

/-- Witness response for C8/C9. -/
def c8Resp : DNSMessage :=
  { timestamp := 7,
    clientIP := some c8ClientIP,
    serverIP := some c8ServerIP,
    clientPort := some 40000,
    serverPort := some 53,
    dns := { id := 77, opcode := 2, questions_count := 1,
             queries := [c8Question] } }

/-- Witness response-only transaction for C8/C9. -/
def c8QR : QueryResponse := { response := some c8Resp }

/-- Witness for C8 at the concrete response-only transaction: every
listed field comes from the response, and bit 4 is clear because the
response does carry a question. -/
theorem writeBasic_response_only_witness :
    (writeBasicCore {} c8QR {} c8Resp {}).1.query_response.tstamp = some 7
    ∧ (writeBasicCore {} c8QR {} c8Resp {}).1.query_response.client_port = some 40000
    ∧ (writeBasicCore {} c8QR {} c8Resp {}).1.query_response.id = some 77
    ∧ (writeBasicCore {} c8QR {} c8Resp {}).2.qdcount = some 1
    ∧ (∃ i, (writeBasicCore {} c8QR {} c8Resp {}).1.query_response.client_address = some i
        ∧ (writeBasicCore {} c8QR {} c8Resp {}).1.data.addresses[i]?
            = some (addr_to_string c8ClientIP {} true))
    ∧ (∃ i, (writeBasicCore {} c8QR {} c8Resp {}).2.server_address = some i
        ∧ (writeBasicCore {} c8QR {} c8Resp {}).1.data.addresses[i]?
            = some (addr_to_string c8ServerIP {} false))
    ∧ (writeBasicCore {} c8QR {} c8Resp {}).2.server_port = some 53
    ∧ (∃ i, (writeBasicCore {} c8QR {} c8Resp {}).1.query_response.qname = some i
        ∧ (writeBasicCore {} c8QR {} c8Resp {}).1.data.names_rdatas[i]?
            = some c8Question.dname)
    ∧ (∃ i, (writeBasicCore {} c8QR {} c8Resp {}).2.query_classtype = some i
        ∧ (writeBasicCore {} c8QR {} c8Resp {}).1.data.class_types[i]?
            = some { qtype := c8Question.query_type, qclass := c8Question.query_class })
    ∧ Nat.testBit (writeBasicCore {} c8QR {} c8Resp {}).1.query_response.qr_flags 4
        = false := by
  have h := writeBasic_response_only {} c8QR {} {}
    (writeBasicCore {} c8QR {} c8Resp {}) c8Resp rfl rfl rfl
  refine ⟨h.1 rfl, h.2.1 40000 rfl rfl, h.2.2.1 rfl, h.2.2.2.1 rfl,
    h.2.2.2.2.1 c8ClientIP rfl rfl, h.2.2.2.2.2.1 c8ServerIP rfl rfl,
    h.2.2.2.2.2.2.1 53 rfl rfl,
    (h.2.2.2.2.2.2.2.1 c8Question [] rfl).1 rfl,
    (h.2.2.2.2.2.2.2.1 c8Question [] rfl).2 rfl, ?_⟩
  rw [h.2.2.2.2.2.2.2.2]
  decide

/-! ## C9 — query_opcode falls back to the response's opcode -/

/-- C9: with the `query_opcode` hint off, a response-only transaction
gets its signature `query_opcode` from the response message's opcode;
when a query is present, the query's opcode is kept (the response
value fills the field only when the query side has not set it). -/
theorem writeBasic_query_opcode (config : Configuration) (qr : QueryResponse)
    (stats : PacketStatistics) (w : WriterState)
    (p : WriterState × QueryResponseSignature)
    (hrun : writeBasicFull config qr stats w = some p)
    (hex : config.exclude_hints.query_opcode = false) :
    (∀ r, qr.query = none → qr.response = some r →
        p.2.query_opcode = some r.dns.opcode)
    ∧ (∀ q, qr.query = some q → p.2.query_opcode = some q.dns.opcode) := by
  rw [writeBasicFull] at hrun
  cases hl : leadingMsg qr with
  | none =>
    rw [hl] at hrun
    exact absurd hrun (by simp)
  | some d =>
    rw [hl] at hrun
    simp only [Option.map_some'] at hrun
    have hp : p = writeBasicCore config qr stats d w := (Option.some.inj hrun).symm
    subst hp
    constructor
    · intro r hq hr
      have hd : d = r := by
        rw [leadingMsg, hq, hr] at hl
        exact (Option.some.inj hl).symm
      subst hd
      have hnone : (querySideInfo config.exclude_hints qr.query
          (firstQueryInfo config.exclude_hints d
            (itemBasicInfo config d
              (sigBasicInfo config qr d
                (wbInitial config stats d w))))).qs.query_opcode = none := by
        rw [hq, querySideInfo_none, firstQueryInfo_query_opcode,
          itemBasicInfo_query_opcode, sigBasicInfo_query_opcode]
        rfl
      rw [writeBasicCore_snd, finishSignature_query_opcode, delayInfo_qs,
        responseSideInfo_query_opcode, hr]
      simp only [hnone, hex, Option.isNone_none, Bool.not_false, Bool.and_self,
        if_true]
    · intro q hq2
      have hd : d = q := by
        rw [leadingMsg, hq2] at hl
        exact (Option.some.inj hl).symm
      subst hd
      have hsome : (querySideInfo config.exclude_hints qr.query
          (firstQueryInfo config.exclude_hints d
            (itemBasicInfo config d
              (sigBasicInfo config qr d
                (wbInitial config stats d w))))).qs.query_opcode
          = some d.dns.opcode := by
        rw [hq2, querySideInfo_query_opcode _ _ _ hex]
      rw [writeBasicCore_snd, finishSignature_query_opcode, delayInfo_qs,
        responseSideInfo_query_opcode]
      cases hres : qr.response with
      | none => exact hsome
      | some r2 =>
        simp only [hsome, Option.isNone_some, Bool.and_false, Bool.false_eq_true,
          if_false]

/-- Witness for C9: on the concrete response-only transaction the
signature opcode is the response's (2); on the concrete matched
transaction it is the query's (0) even though a response is present. -/
theorem writeBasic_query_opcode_witness :
    (writeBasicCore {} c8QR {} c8Resp {}).2.query_opcode = some 2
    ∧ (writeBasicCore {} c2QR {} c2Query {}).2.query_opcode = some 0 :=
  ⟨(writeBasic_query_opcode {} c8QR {} {}
      (writeBasicCore {} c8QR {} c8Resp {}) rfl rfl).1 c8Resp rfl rfl,
   (writeBasic_query_opcode {} c2QR {} {}
      (writeBasicCore {} c2QR {} c2Query {}) rfl rfl).2 c2Query rfl⟩

/-! ## C7 — file framing and the empty file -/

theorem cborHead_ne_nil (major n : Nat) : cborHead major n ≠ [] := by
  unfold cborHead
  repeat' split
  all_goals simp

theorem blockCborBytes_ne_nil (b : BlockData) : blockCborBytes b ≠ [] := by
  intro h
  rw [blockCborBytes] at h
  have := (List.append_eq_nil.mp h).1
  exact cborHead_ne_nil 5 _ this

/-- A successful `writeBasic` never touches the encoder stream or the
flushed-block list. -/
theorem writeBasic_out_flushed (config : Configuration) (qr : QueryResponse)
    (stats : PacketStatistics) (w w1 : WriterState)
    (hw : writeBasic config qr stats w = some w1) :
    w1.out = w.out ∧ w1.flushed = w.flushed ∧ w1.is_open = w.is_open := by
  rw [writeBasic, writeBasicFull] at hw
  cases hl : leadingMsg qr with
  | none =>
    rw [hl] at hw
    exact absurd hw (by simp)
  | some d =>
    rw [hl] at hw
    simp only [Option.map_some'] at hw
    have hw1 : w1 = (writeBasicCore config qr stats d w).1 := (Option.some.inj hw).symm
    subst hw1
    refine ⟨?_, ?_, ?_⟩
    · show (updateBlockStats stats w).out = w.out
      by_cases hn : w.need_start_block_stats <;> simp [updateBlockStats, hn]
    · show (updateBlockStats stats w).flushed = w.flushed
      by_cases hn : w.need_start_block_stats <;> simp [updateBlockStats, hn]
    · show (updateBlockStats stats w).is_open = w.is_open
      by_cases hn : w.need_start_block_stats <;> simp [updateBlockStats, hn]

/-- Along any run of ingest operations the stream stays
`file header ++ flushed block bytes` and the sink stays open. -/
theorem recRun_out_structure (config : Configuration) (ops : List RecOp)
    (w w1 : WriterState) (hrun : recRun config ops w = some w1)
    (hout : w.out = fileHeaderBytes config ++ (w.flushed.map blockCborBytes).flatten)
    (hopen : w.is_open = true) :
    w1.out = fileHeaderBytes config ++ (w1.flushed.map blockCborBytes).flatten
    ∧ w1.is_open = true := by
  induction ops generalizing w with
  | nil =>
    have hw1 : w = w1 := Option.some.inj hrun
    subst hw1
    exact ⟨hout, hopen⟩
  | cons op ops ih =>
    cases hstep : recStep config w op with
    | none =>
      rw [recRun, hstep] at hrun
      exact absurd hrun (by simp)
    | some wmid =>
      rw [recRun, hstep, Option.some_bind] at hrun
      have hmidfacts :
          wmid.out = fileHeaderBytes config ++ (wmid.flushed.map blockCborBytes).flatten
          ∧ wmid.is_open = true := by
        cases op with
        | start qr =>
          simp only [recStep] at hstep
          rw [startRecord] at hstep
          by_cases hfull : BlockData.is_full config w.data
          · rw [if_pos hfull] at hstep
            cases hl : leadingMsg qr with
            | none =>
              rw [hl] at hstep
              exact absurd hstep (by simp)
            | some d =>
              rw [hl] at hstep
              have hmid := Option.some.inj hstep
              rw [← hmid]
              constructor
              · simp [writeBlock, hout, List.map_append, List.append_assoc]
              · simp [writeBlock, hopen]
          · rw [if_neg hfull] at hstep
            have hmid := Option.some.inj hstep
            rw [← hmid]
            exact ⟨hout, hopen⟩
        | basic qr stats =>
          obtain ⟨ho, hf, hio⟩ := writeBasic_out_flushed config qr stats w wmid hstep
          rw [ho, hf, hio]
          exact ⟨hout, hopen⟩
        | endr =>
          simp only [recStep] at hstep
          have hmid := Option.some.inj hstep
          rw [← hmid]
          exact ⟨hout, hopen⟩
      exact ih wmid hrun hmidfacts.1 hmidfacts.2

/-- C7 as stated is false on the code: `close` (blockcborwriter.cpp:77)
calls `writeBlock()` unconditionally, so opening a file and closing it
immediately flushes one (empty) block — the file-blocks section carries
a block item between the `0x9f` array header and the `0xff` break, not
the bare two bytes, and the block count is 1, not 0. -/
theorem close_empty_file_has_one_block :
    (close false 0 (openFile {} ({} : WriterState))).flushed.length = 1
    ∧ (close false 0 (openFile {} ({} : WriterState))).out
        ≠ fileHeaderBytes {} ++ [CBOR_BREAK] := by
  constructor
  · rfl
  · decide

/-- C7 amended: every opened file's byte stream is the file header
(ending in the `0x9f` indefinite array header), then the concatenation
of one complete non-empty CBOR item per flushed block — the final,
possibly empty, block included — terminated by a single `0xff` break
byte; in particular a file opened and closed immediately holds exactly
one empty block between `0x9f` and `0xff`, not zero. -/
theorem fileBlocks_structure (config : Configuration) (ops : List RecOp)
    (live : Bool) (now : Int) (w0 w1 : WriterState)
    (hrun : recRun config ops (openFile config w0) = some w1) :
    (close live now w1).out
      = fileHeaderBytes config
        ++ ((close live now w1).flushed.map blockCborBytes).flatten
        ++ [CBOR_BREAK]
    ∧ (∀ b, blockCborBytes b ≠ [])
    ∧ (close false 0 (openFile config ({} : WriterState))).out
        = fileHeaderBytes config ++ blockCborBytes ({} : BlockData) ++ [CBOR_BREAK] := by
  refine ⟨?_, blockCborBytes_ne_nil, ?_⟩
  · have hinv := recRun_out_structure config ops (openFile config w0) w1 hrun
      (by simp [openFile]) (by simp [openFile])
    rw [close, if_pos hinv.2]
    by_cases hlive : (live && w1.data.end_time.isNone) = true
    · rw [if_pos hlive]
      simp [writeBlock, writeFileFooter, hinv.1, List.map_append, List.append_assoc]
    · rw [if_neg hlive]
      simp [writeBlock, writeFileFooter, hinv.1, List.map_append, List.append_assoc]
  · rw [close]
    simp [openFile, writeBlock, writeFileFooter, List.append_assoc]

/-- Witness for the amended C7: the empty session (no ingest
operations) satisfies the framing equation. -/
theorem fileBlocks_structure_witness :
    (close false 0 (openFile {} ({} : WriterState))).out
      = fileHeaderBytes {}
        ++ (((close false 0 (openFile {} ({} : WriterState))).flushed).map
              blockCborBytes).flatten
        ++ [CBOR_BREAK]
    ∧ blockCborBytes ({} : BlockData) ≠ [] := by
  have h := fileBlocks_structure {} [] false 0 {}
    (openFile {} ({} : WriterState)) rfl
  exact ⟨h.1, h.2.1 {}⟩
